import Mathlib

/-
  Shallow embedding of the COMITIA `VotingContract` Solidity contract
  (contract `VotingContract is AccessControl, ReentrancyGuard, Pausable`).

  Modelling notes:
  * Addresses and `bytes32` values are modelled as `Nat`, with `0` playing the
    role of `address(0)` resp. `bytes32(0)`.
  * Solidity mappings are total functions with the zero-initialised default.
  * The four role constants (`DEFAULT_ADMIN_ROLE`, `ELECTION_ADMIN_ROLE`,
    `VOTER_ROLE`, `AUDITOR_ROLE`) are distinct `keccak256` values in the
    source; they are modelled as the four constructors of `RoleId`.
  * Each external function takes the caller (`msg.sender`) and, where the
    source reads `block.timestamp`, the current time `now` as explicit
    arguments, and returns `Except String σ`: `Except.error msg` models a
    `require` revert with the source's revert string (reverts roll the whole
    transaction back, so an error carries no state).  OpenZeppelin's
    `whenNotPaused` / `whenPaused` revert strings are `"Pausable: paused"` /
    `"Pausable: not paused"`; `onlyRole`'s dynamically formatted message is
    modelled by the fixed string `"AccessControl: account is missing role"`.
  * `nonReentrant` cannot fire in a sequential model and is a no-op.
-/

namespace Comitia

/-- The four role constants of the contract; distinct `bytes32` values. -/
inductive RoleId where
  | defaultAdmin
  | electionAdmin
  | voter
  | auditor
deriving DecidableEq

/-- Pointwise update of a mapping, as a Solidity mapping assignment. -/
def updFn {α β : Type} [DecidableEq α] (f : α → β) (k : α) (v : β) : α → β :=
  fun x => if x = k then v else f x

/-- Candidate struct of the contract. -/
structure Candidate where
  name : String
  party : String
  manifesto : String
  candidateAddress : Nat
  voteCount : Nat
  isActive : Bool

/-- Position struct of the contract.  The inner mappings `hasVoted` and
`voteCount` are named `posHasVoted` / `posVoteCount` here to avoid clashing
with the top-level `hasVoted` mapping and `Candidate.voteCount`. -/
structure Position where
  title : String
  description : String
  maxVotesPerVoter : Nat
  availableSeats : Nat
  candidateIds : List String
  candidates : String → Candidate
  posHasVoted : Nat → Bool
  posVoteCount : String → Nat

/-- Vote struct of the contract. -/
structure Vote where
  electionId : String
  positionId : String
  candidateId : String
  voter : Nat
  timestamp : Nat
  voteHash : Nat
  isVerified : Bool

/-- Election struct of the contract. -/
structure Election where
  title : String
  description : String
  startTime : Nat
  endTime : Nat
  isActive : Bool
  resultsPublished : Bool
  totalVotes : Nat
  creator : Nat
  positionIds : List String
  positions : String → Position

/-- Zero-initialised `Candidate`, the default value of a Solidity mapping. -/
def defaultCandidate : Candidate :=
  ⟨"", "", "", 0, 0, false⟩

/-- Zero-initialised `Position`. -/
def defaultPosition : Position :=
  ⟨"", "", 0, 0, [], fun _ => defaultCandidate, fun _ => false, fun _ => 0⟩

/-- Zero-initialised `Vote`. -/
def defaultVote : Vote :=
  ⟨"", "", "", 0, 0, 0, false⟩

/-- Zero-initialised `Election`. -/
def defaultElection : Election :=
  ⟨"", "", 0, 0, false, false, 0, 0, [], fun _ => defaultPosition⟩

/-- The full storage of the contract. -/
structure ContractState where
  roles : RoleId → Nat → Bool
  elections : String → Election
  hasVoted : Nat → String → String → Bool
  votes : Nat → Vote
  registeredVoters : Nat → Bool
  electionExists : String → Bool
  electionIds : List String
  voteHashes : List Nat
  paused : Bool

/-- State right after the constructor ran with `deployer` as `msg.sender`:
the deployer holds `DEFAULT_ADMIN_ROLE` and `ELECTION_ADMIN_ROLE`. -/
def initialState (deployer : Nat) : ContractState where
  roles := fun r a =>
    if (r = RoleId.defaultAdmin ∨ r = RoleId.electionAdmin) ∧ a = deployer then true else false
  elections := fun _ => defaultElection
  hasVoted := fun _ _ _ => false
  votes := fun _ => defaultVote
  registeredVoters := fun _ => false
  electionExists := fun _ => false
  electionIds := []
  voteHashes := []
  paused := false

/-- `registerVoter(address voter)`. -/
def registerVoter (sender voter : Nat) (s : ContractState) : Except String ContractState :=
  if ¬ s.roles RoleId.electionAdmin sender then .error "Caller is not an election admin"
  else if s.registeredVoters voter then .error "Voter already registered"
  else .ok { s with
    registeredVoters := updFn s.registeredVoters voter true,
    roles := fun r a => if r = RoleId.voter ∧ a = voter then true else s.roles r a }

/-- `revokeVoter(address voter)`. -/
def revokeVoter (sender voter : Nat) (s : ContractState) : Except String ContractState :=
  if ¬ s.roles RoleId.electionAdmin sender then .error "Caller is not an election admin"
  else if ¬ s.registeredVoters voter then .error "Voter not registered"
  else .ok { s with
    registeredVoters := updFn s.registeredVoters voter false,
    roles := fun r a => if r = RoleId.voter ∧ a = voter then false else s.roles r a }

/-- `createElection(electionId, title, description, startTime, endTime)`.
The source assigns the scalar fields of `elections[electionId]` one by one;
the `positions` mapping and `positionIds` array are left as they are. -/
def createElection (sender now : Nat) (electionId title description : String)
    (startTime endTime : Nat) (s : ContractState) : Except String ContractState :=
  if ¬ s.roles RoleId.electionAdmin sender then .error "Caller is not an election admin"
  else if s.electionExists electionId then .error "Election already exists"
  else if ¬ startTime < endTime then .error "Start time must be before end time"
  else if ¬ endTime > now then .error "End time must be in the future"
  else
    let old := s.elections electionId
    let newElection : Election :=
      { old with
        title := title, description := description,
        startTime := startTime, endTime := endTime,
        isActive := false, resultsPublished := false,
        totalVotes := 0, creator := sender }
    .ok { s with
      elections := updFn s.elections electionId newElection,
      electionExists := updFn s.electionExists electionId true,
      electionIds := s.electionIds ++ [electionId] }

/-- `addPosition(electionId, positionId, title, description, maxVotesPerVoter,
availableSeats)`.  Note: the source only requires the election not to be
*active*, performs no duplicate check on `positionId`, and pushes the id onto
`positionIds` unconditionally. -/
def addPosition (sender : Nat) (electionId positionId title description : String)
    (maxVotesPerVoter availableSeats : Nat) (s : ContractState) :
    Except String ContractState :=
  if ¬ s.roles RoleId.electionAdmin sender then .error "Caller is not an election admin"
  else if ¬ s.electionExists electionId then .error "Election does not exist"
  else if (s.elections electionId).isActive then .error "Cannot modify active election"
  else if ¬ maxVotesPerVoter > 0 then .error "Max votes must be greater than 0"
  else if ¬ availableSeats > 0 then .error "Available seats must be greater than 0"
  else
    let election := s.elections electionId
    let position := election.positions positionId
    let newPosition : Position :=
      { position with
        title := title, description := description,
        maxVotesPerVoter := maxVotesPerVoter, availableSeats := availableSeats }
    let newElection : Election :=
      { election with
        positions := updFn election.positions positionId newPosition,
        positionIds := election.positionIds ++ [positionId] }
    .ok { s with elections := updFn s.elections electionId newElection }

/-- `registerCandidate(electionId, positionId, candidateId, name, party,
manifesto, candidateAddress)`.  Same remarks as for `addPosition`: no
duplicate check on `candidateId`, and the assignment resets `voteCount` to 0
and pushes onto `candidateIds` unconditionally. -/
def registerCandidate (sender : Nat) (electionId positionId candidateId nm party manifesto : String)
    (candidateAddress : Nat) (s : ContractState) : Except String ContractState :=
  if ¬ s.roles RoleId.electionAdmin sender then .error "Caller is not an election admin"
  else if ¬ s.electionExists electionId then .error "Election does not exist"
  else if (s.elections electionId).isActive then .error "Cannot modify active election"
  else if candidateAddress = 0 then .error "Invalid candidate address"
  else
    let election := s.elections electionId
    let position := election.positions positionId
    let newCandidate : Candidate :=
      { name := nm, party := party, manifesto := manifesto,
        candidateAddress := candidateAddress, voteCount := 0, isActive := true }
    let newPosition : Position :=
      { position with
        candidates := updFn position.candidates candidateId newCandidate,
        candidateIds := position.candidateIds ++ [candidateId] }
    let newElection : Election :=
      { election with positions := updFn election.positions positionId newPosition }
    .ok { s with elections := updFn s.elections electionId newElection }

/-- `startElection(electionId)`.  Note: the source only requires the election
not to be *currently* active, so an ended election may be started again. -/
def startElection (sender now : Nat) (electionId : String) (s : ContractState) :
    Except String ContractState :=
  if ¬ s.roles RoleId.electionAdmin sender then .error "Caller is not an election admin"
  else if ¬ s.electionExists electionId then .error "Election does not exist"
  else if (s.elections electionId).isActive then .error "Election is already active"
  else if now < (s.elections electionId).startTime then .error "Election start time not reached"
  else if (s.elections electionId).positionIds = [] then
    .error "Election must have at least one position"
  else
    let election := s.elections electionId
    .ok { s with
      elections := updFn s.elections electionId { election with isActive := true } }

/-- `endElection(electionId)`. -/
def endElection (sender : Nat) (electionId : String) (s : ContractState) :
    Except String ContractState :=
  if ¬ s.roles RoleId.electionAdmin sender then .error "Caller is not an election admin"
  else if ¬ s.electionExists electionId then .error "Election does not exist"
  else if ¬ (s.elections electionId).isActive then .error "Election is not active"
  else
    let election := s.elections electionId
    .ok { s with
      elections := updFn s.elections electionId { election with isActive := false } }

/-- The storage after the write sequence of a successful `castVote` (the
source's lines "Record the vote" through "Store vote hash for iteration"):
insert the `Vote`, set both `hasVoted` flags, bump `position.voteCount`,
`candidate.voteCount` and `election.totalVotes`, and push the hash. -/
def castVoteUpd (sender now : Nat) (electionId positionId candidateId : String)
    (voteHash : Nat) (s : ContractState) : ContractState :=
  let election := s.elections electionId
  let position := election.positions positionId
  let candidate := position.candidates candidateId
  let newVote : Vote :=
    { electionId := electionId, positionId := positionId, candidateId := candidateId,
      voter := sender, timestamp := now, voteHash := voteHash, isVerified := true }
  let newCandidate : Candidate := { candidate with voteCount := candidate.voteCount + 1 }
  let newPosition : Position :=
    { position with
      candidates := updFn position.candidates candidateId newCandidate,
      posHasVoted := updFn position.posHasVoted sender true,
      posVoteCount :=
        updFn position.posVoteCount candidateId (position.posVoteCount candidateId + 1) }
  let newElection : Election :=
    { election with
      positions := updFn election.positions positionId newPosition,
      totalVotes := election.totalVotes + 1 }
  { s with
    elections := updFn s.elections electionId newElection,
    hasVoted := fun v e p =>
      if v = sender ∧ e = electionId ∧ p = positionId then true else s.hasVoted v e p,
    votes := updFn s.votes voteHash newVote,
    voteHashes := s.voteHashes ++ [voteHash] }

/-- `castVote(electionId, positionId, candidateId, voteHash)`.  The modifiers
run in their declaration order: `onlyRegisteredVoter`, `nonReentrant` (no-op
here), `whenNotPaused`, `electionMustExist`, `votingMustBeActive` (three
requires), `hasNotVoted`; then the body's two requires.  Note: the body has
*no* check that `voteHash` is fresh — `votes[voteHash]` is assigned
unconditionally and `voteHash` is pushed onto `voteHashes` unconditionally. -/
def castVote (sender now : Nat) (electionId positionId candidateId : String)
    (voteHash : Nat) (s : ContractState) : Except String ContractState :=
  if ¬ s.registeredVoters sender then .error "Caller is not a registered voter"
  else if s.paused then .error "Pausable: paused"
  else if ¬ s.electionExists electionId then .error "Election does not exist"
  else if ¬ (s.elections electionId).isActive then .error "Voting is not active"
  else if now < (s.elections electionId).startTime then .error "Voting has not started"
  else if (s.elections electionId).endTime < now then .error "Voting has ended"
  else if s.hasVoted sender electionId positionId then .error "Already voted for this position"
  else if ¬ (((s.elections electionId).positions positionId).candidates candidateId).isActive then
    .error "Candidate is not active"
  else if voteHash = 0 then .error "Invalid vote hash"
  else .ok (castVoteUpd sender now electionId positionId candidateId voteHash s)

/-- `publishResults(electionId)`.  Note: the source requires only
`!election.isActive`, which also holds for an election that was never
started. -/
def publishResults (sender : Nat) (electionId : String) (s : ContractState) :
    Except String ContractState :=
  if ¬ s.roles RoleId.electionAdmin sender then .error "Caller is not an election admin"
  else if ¬ s.electionExists electionId then .error "Election does not exist"
  else if (s.elections electionId).isActive then .error "Election must be ended first"
  else if (s.elections electionId).resultsPublished then .error "Results already published"
  else
    let election := s.elections electionId
    .ok { s with
      elections := updFn s.elections electionId { election with resultsPublished := true } }

/-- `verifyVote(voteHash)`: a view function returning the stored record's
fields; reverts with `"Vote not found"` when the stored voter is the zero
address. -/
def verifyVote (voteHash : Nat) (s : ContractState) :
    Except String (String × String × String × Nat × Nat × Bool) :=
  let vote := s.votes voteHash
  if vote.voter = 0 then .error "Vote not found"
  else .ok (vote.electionId, vote.positionId, vote.candidateId,
            vote.voter, vote.timestamp, vote.isVerified)

/-- `hasVoterVoted(voter, electionId, positionId)`: a view function. -/
def hasVoterVoted (voter : Nat) (electionId positionId : String) (s : ContractState) : Bool :=
  s.hasVoted voter electionId positionId

/-- `pause()`: `onlyRole(DEFAULT_ADMIN_ROLE)` then OpenZeppelin `_pause`,
whose `whenNotPaused` modifier reverts when already paused. -/
def pause (sender : Nat) (s : ContractState) : Except String ContractState :=
  if ¬ s.roles RoleId.defaultAdmin sender then .error "AccessControl: account is missing role"
  else if s.paused then .error "Pausable: paused"
  else .ok { s with paused := true }

/-- `unpause()`: `onlyRole(DEFAULT_ADMIN_ROLE)` then OpenZeppelin `_unpause`,
whose `whenPaused` modifier reverts when not paused. -/
def unpause (sender : Nat) (s : ContractState) : Except String ContractState :=
  if ¬ s.roles RoleId.defaultAdmin sender then .error "AccessControl: account is missing role"
  else if ¬ s.paused then .error "Pausable: not paused"
  else .ok { s with paused := false }

/-- Inherited `AccessControl.grantRole`: guarded by the admin role of `role`,
which is `DEFAULT_ADMIN_ROLE` for every role here (no `_setRoleAdmin` call in
the contract). -/
def grantRole (sender : Nat) (role : RoleId) (account : Nat) (s : ContractState) :
    Except String ContractState :=
  if ¬ s.roles RoleId.defaultAdmin sender then .error "AccessControl: account is missing role"
  else .ok { s with
    roles := fun r a => if r = role ∧ a = account then true else s.roles r a }

/-- Inherited `AccessControl.revokeRole`. -/
def revokeRole (sender : Nat) (role : RoleId) (account : Nat) (s : ContractState) :
    Except String ContractState :=
  if ¬ s.roles RoleId.defaultAdmin sender then .error "AccessControl: account is missing role"
  else .ok { s with
    roles := fun r a => if r = role ∧ a = account then false else s.roles r a }

/-- One external state-mutating call to the contract, with its caller and,
where the source reads `block.timestamp`, the block time. -/
inductive Op where
  | opRegisterVoter (sender voter : Nat)
  | opRevokeVoter (sender voter : Nat)
  | opCreateElection (sender now : Nat) (electionId title description : String)
      (startTime endTime : Nat)
  | opAddPosition (sender : Nat) (electionId positionId title description : String)
      (maxVotesPerVoter availableSeats : Nat)
  | opRegisterCandidate (sender : Nat)
      (electionId positionId candidateId nm party manifesto : String) (candidateAddress : Nat)
  | opStartElection (sender now : Nat) (electionId : String)
  | opEndElection (sender : Nat) (electionId : String)
  | opCastVote (sender now : Nat) (electionId positionId candidateId : String) (voteHash : Nat)
  | opPublishResults (sender : Nat) (electionId : String)
  | opPause (sender : Nat)
  | opUnpause (sender : Nat)
  | opGrantRole (sender : Nat) (role : RoleId) (account : Nat)
  | opRevokeRole (sender : Nat) (role : RoleId) (account : Nat)

/-- Dispatch an `Op` to the corresponding contract function. -/
def applyOp : Op → ContractState → Except String ContractState
  | .opRegisterVoter sender voter => registerVoter sender voter
  | .opRevokeVoter sender voter => revokeVoter sender voter
  | .opCreateElection sender now e t d st en => createElection sender now e t d st en
  | .opAddPosition sender e p t d mx av => addPosition sender e p t d mx av
  | .opRegisterCandidate sender e p c nm pa mf ad => registerCandidate sender e p c nm pa mf ad
  | .opStartElection sender now e => startElection sender now e
  | .opEndElection sender e => endElection sender e
  | .opCastVote sender now e p c h => castVote sender now e p c h
  | .opPublishResults sender e => publishResults sender e
  | .opPause sender => pause sender
  | .opUnpause sender => unpause sender
  | .opGrantRole sender role account => grantRole sender role account
  | .opRevokeRole sender role account => revokeRole sender role account

/-- Execute one call with revert semantics: a failing call leaves the state
unchanged. -/
def stepD (s : ContractState) (op : Op) : ContractState :=
  match applyOp op s with
  | .ok s1 => s1
  | .error _ => s

/-- Execute a sequence of calls with revert semantics. -/
def runOps (s : ContractState) (ops : List Op) : ContractState :=
  ops.foldl stepD s

/-- Check that every call in a sequence succeeds. -/
def okTrace (s : ContractState) : List Op → Bool
  | [] => true
  | op :: rest =>
    match applyOp op s with
    | .ok s1 => okTrace s1 rest
    | .error _ => false

/-- The state reached from a fresh deployment by `deployer` after the calls
in `t`, in order; failing calls revert and leave the state unchanged. -/
inductive ReachedBy (deployer : Nat) : List Op → ContractState → Prop where
  | nil : ReachedBy deployer [] (initialState deployer)
  | okStep {t s op s1} : ReachedBy deployer t s → applyOp op s = .ok s1 →
      ReachedBy deployer (t ++ [op]) s1
  | errStep {t s op msg} : ReachedBy deployer t s → applyOp op s = .error msg →
      ReachedBy deployer (t ++ [op]) s

/-- A state the deployed contract can be in after any sequence of calls. -/
def Reachable (deployer : Nat) (s : ContractState) : Prop :=
  ∃ t, ReachedBy deployer t s

/-- The vote records held in the `votes` mapping: one record per distinct
hash ever pushed onto `voteHashes` (`dedup` keeps the last occurrence, and
the mapping holds the last write). -/
def storedVotes (s : ContractState) : List Vote :=
  s.voteHashes.dedup.map s.votes

/-- The tally invariant of the specification: each election's `totalVotes`
counts the stored records with its id, and each candidate's `voteCount`
counts the stored records referencing it. -/
def TalliesCorrect (s : ContractState) : Prop :=
  (∀ e, (s.elections e).totalVotes =
      (storedVotes s).countP (fun r => r.electionId == e)) ∧
  (∀ e p c, (((s.elections e).positions p).candidates c).voteCount =
      (storedVotes s).countP
        (fun r => r.electionId == e && r.positionId == p && r.candidateId == c))

/-- The hash submitted by a `castVote` call, if the call is one. -/
def castHash : Op → Option Nat
  | .opCastVote _ _ _ _ _ h => some h
  | _ => none

/-- `noClobber o1 o2` fails exactly when `o1` casts a vote for a candidate
that `o2` later re-registers (which resets that candidate's `voteCount`). -/
def noClobber : Op → Op → Bool
  | .opCastVote _ _ e p c _, .opRegisterCandidate _ e1 p1 c1 _ _ _ _ =>
      ! (e == e1 && p == p1 && c == c1)
  | _, _ => true

/-- A call trace that avoids the two tally-breaking patterns: reusing a
`voteHash` across `castVote` calls, and re-registering a candidate after a
vote was cast for it. -/
def GoodTrace (t : List Op) : Prop :=
  (t.filterMap castHash).Nodup ∧ t.Pairwise (fun o1 o2 => noClobber o1 o2 = true)

/-- Structural invariants that hold in every reachable state, whatever the
trace: unwritten vote slots are zeroed; every stored record's voter is
marked in the `hasVoted` index; two distinct stored hash slots never hold
the same (voter, election, position) triple; `electionIds` is
duplicate-free and matches the `electionExists` flag. -/
def BaseInv (s : ContractState) : Prop :=
  (∀ h, h ∉ s.voteHashes → s.votes h = defaultVote) ∧
  (∀ h, h ∈ s.voteHashes →
    s.hasVoted (s.votes h).voter (s.votes h).electionId (s.votes h).positionId = true) ∧
  (∀ h1 h2, h1 ∈ s.voteHashes → h2 ∈ s.voteHashes →
    (s.votes h1).voter = (s.votes h2).voter →
    (s.votes h1).electionId = (s.votes h2).electionId →
    (s.votes h1).positionId = (s.votes h2).positionId → h1 = h2) ∧
  s.electionIds.Nodup ∧
  (∀ e, e ∈ s.electionIds ↔ s.electionExists e = true)

/-- Every stored record refers to an election that exists. -/
def RecordsExist (s : ContractState) : Prop :=
  ∀ h, h ∈ s.voteHashes → s.electionExists ((s.votes h).electionId) = true

/-- Every stored record was written by a `castVote` call appearing in the
trace, with exactly the stored fields and hash. -/
def RecordsFromTrace (t : List Op) (s : ContractState) : Prop :=
  ∀ h, h ∈ s.voteHashes →
    Op.opCastVote (s.votes h).voter (s.votes h).timestamp (s.votes h).electionId
      (s.votes h).positionId (s.votes h).candidateId h ∈ t

/-- The induction bundle for the tally invariant along a `GoodTrace`. -/
def TallyInv (t : List Op) (s : ContractState) : Prop :=
  TalliesCorrect s ∧ s.voteHashes.Nodup ∧ RecordsExist s ∧ RecordsFromTrace t s

/-- The administrative/configuration calls: everything except `castVote`
and the pause toggles themselves. -/
def adminCall : Op → Bool
  | .opCastVote _ _ _ _ _ _ => false
  | .opPause _ => false
  | .opUnpause _ => false
  | _ => true

/-! ### Concrete call traces used to exercise the contract

Deployer address `1`; voters `2` and `3`; candidate address `9`.  Election
`"E1"` has voting window `[100, 2000]`. -/

/-- Configure election `"E1"` with one position and two candidates, register
voters `2` and `3`, and start the election at time `100`. -/
def seedOps : List Op :=
  [ .opCreateElection 1 0 "E1" "General" "d" 100 2000,
    .opAddPosition 1 "E1" "P1" "President" "d" 1 1,
    .opRegisterCandidate 1 "E1" "P1" "C1" "Alice" "pa" "m" 9,
    .opRegisterCandidate 1 "E1" "P1" "C2" "Bob" "pb" "m" 9,
    .opRegisterVoter 1 2,
    .opRegisterVoter 1 3,
    .opStartElection 1 100 "E1" ]

/-- The state with `"E1"` live and voters registered. -/
def sReady : ContractState := runOps (initialState 1) seedOps

/-- Voter `2` casts a ballot for `"C1"` with hash `5`. -/
def cast1 : Op := .opCastVote 2 150 "E1" "P1" "C1" 5

/-- The state after the first ballot. -/
def sAfterFirst : ContractState := runOps (initialState 1) (seedOps ++ [cast1])

/-- Voter `3` reuses hash `5` for a ballot for `"C2"`. -/
def cast2dup : Op := .opCastVote 3 160 "E1" "P1" "C2" 5

/-- Seed, then two ballots sharing hash `5`. -/
def dupHashOps : List Op := seedOps ++ [cast1, cast2dup]

/-- The state after the hash collision. -/
def sDup : ContractState := runOps (initialState 1) dupHashOps

/-- Seed, then end `"E1"`. -/
def endedOps : List Op := seedOps ++ [.opEndElection 1 "E1"]

/-- The state with `"E1"` ended. -/
def sEnded : ContractState := runOps (initialState 1) endedOps

/-- Seed, end `"E1"`, publish its results. -/
def pubOps : List Op := seedOps ++ [.opEndElection 1 "E1", .opPublishResults 1 "E1"]

/-- The state with `"E1"` ended and published. -/
def sPub : ContractState := runOps (initialState 1) pubOps

/-- Seed, then engage the pause switch. -/
def pausedOps : List Op := seedOps ++ [.opPause 1]

/-- The paused state. -/
def sPaused : ContractState := runOps (initialState 1) pausedOps

/-- Seed, then two ballots with distinct hashes `5` and `6` — a well-behaved
trace. -/
def goodOps : List Op := seedOps ++ [cast1, .opCastVote 3 160 "E1" "P1" "C2" 6]

/-- The state after the well-behaved trace. -/
def sGood : ContractState := runOps (initialState 1) goodOps

/-- Create `"E1"` and add position `"P1"` twice. -/
def dupPosOps : List Op :=
  [ .opCreateElection 1 0 "E1" "General" "d" 100 2000,
    .opAddPosition 1 "E1" "P1" "President" "d" 1 1,
    .opAddPosition 1 "E1" "P1" "Chair" "d" 2 2 ]

/-- The state after adding the same position id twice. -/
def sDupPos : ContractState := runOps (initialState 1) dupPosOps

/-! ### Basic lemmas about mapping updates -/

theorem updFn_same {α β : Type} [DecidableEq α] (f : α → β) (k : α) (v : β) :
    updFn f k v k = v := by
  simp [updFn]

theorem updFn_ne {α β : Type} [DecidableEq α] (f : α → β) (k : α) (v : β) {x : α}
    (h : x ≠ k) : updFn f k v x = f x := by
  simp [updFn, h]

/-! ### Success characterizations of the contract functions

For each mutating function, a lemma reading off from `f args s = .ok s1` the
guard conditions that must have held and the exact resulting storage. -/

theorem registerVoter_ok_chr {sender voter : Nat} {s s1 : ContractState} :
    registerVoter sender voter s = .ok s1 →
      s.roles RoleId.electionAdmin sender = true ∧ s.registeredVoters voter = false ∧
      s1 = { s with
        registeredVoters := updFn s.registeredVoters voter true,
        roles := fun r a => if r = RoleId.voter ∧ a = voter then true else s.roles r a } := by
  intro hok
  unfold registerVoter at hok
  repeat' split at hok
  all_goals try exact (Except.noConfusion hok)
  injection hok with hs
  subst hs
  rename_i h1 h2
  exact ⟨by simpa using h1, by simpa using h2, rfl⟩

theorem revokeVoter_ok_chr {sender voter : Nat} {s s1 : ContractState} :
    revokeVoter sender voter s = .ok s1 →
      s.roles RoleId.electionAdmin sender = true ∧ s.registeredVoters voter = true ∧
      s1 = { s with
        registeredVoters := updFn s.registeredVoters voter false,
        roles := fun r a => if r = RoleId.voter ∧ a = voter then false else s.roles r a } := by
  intro hok
  unfold revokeVoter at hok
  repeat' split at hok
  all_goals try exact (Except.noConfusion hok)
  injection hok with hs
  subst hs
  rename_i h1 h2
  exact ⟨by simpa using h1, by simpa using h2, rfl⟩

theorem createElection_ok_chr {sender now : Nat} {e t d : String} {st en : Nat}
    {s s1 : ContractState} :
    createElection sender now e t d st en s = .ok s1 →
      s.roles RoleId.electionAdmin sender = true ∧ s.electionExists e = false ∧
      st < en ∧ en > now ∧
      s1 = { s with
        elections := updFn s.elections e
          { s.elections e with
            title := t, description := d, startTime := st, endTime := en,
            isActive := false, resultsPublished := false, totalVotes := 0, creator := sender },
        electionExists := updFn s.electionExists e true,
        electionIds := s.electionIds ++ [e] } := by
  intro hok
  unfold createElection at hok
  repeat' split at hok
  all_goals try exact (Except.noConfusion hok)
  injection hok with hs
  subst hs
  rename_i h1 h2 h3 h4
  exact ⟨by simpa using h1, by simpa using h2, by omega, by omega, rfl⟩

theorem addPosition_ok_chr {sender : Nat} {e p t d : String} {mx av : Nat}
    {s s1 : ContractState} :
    addPosition sender e p t d mx av s = .ok s1 →
      s.roles RoleId.electionAdmin sender = true ∧ s.electionExists e = true ∧
      (s.elections e).isActive = false ∧ mx > 0 ∧ av > 0 ∧
      s1 = { s with
        elections := updFn s.elections e
          { s.elections e with
            positions := updFn (s.elections e).positions p
              { (s.elections e).positions p with
                title := t, description := d, maxVotesPerVoter := mx, availableSeats := av },
            positionIds := (s.elections e).positionIds ++ [p] } } := by
  intro hok
  unfold addPosition at hok
  repeat' split at hok
  all_goals try exact (Except.noConfusion hok)
  injection hok with hs
  subst hs
  rename_i h1 h2 h3 h4 h5
  exact ⟨by simpa using h1, by simpa using h2, by simpa using h3, by omega, by omega, rfl⟩

theorem registerCandidate_ok_chr {sender : Nat} {e p c nm pa mf : String} {ad : Nat}
    {s s1 : ContractState} :
    registerCandidate sender e p c nm pa mf ad s = .ok s1 →
      s.roles RoleId.electionAdmin sender = true ∧ s.electionExists e = true ∧
      (s.elections e).isActive = false ∧ ad ≠ 0 ∧
      s1 = { s with
        elections := updFn s.elections e
          { s.elections e with
            positions := updFn (s.elections e).positions p
              { (s.elections e).positions p with
                candidates := updFn ((s.elections e).positions p).candidates c
                  { name := nm, party := pa, manifesto := mf,
                    candidateAddress := ad, voteCount := 0, isActive := true },
                candidateIds := ((s.elections e).positions p).candidateIds ++ [c] } } } := by
  intro hok
  unfold registerCandidate at hok
  repeat' split at hok
  all_goals try exact (Except.noConfusion hok)
  injection hok with hs
  subst hs
  rename_i h1 h2 h3 h4
  exact ⟨by simpa using h1, by simpa using h2, by simpa using h3, h4, rfl⟩

theorem startElection_ok_chr {sender now : Nat} {e : String} {s s1 : ContractState} :
    startElection sender now e s = .ok s1 →
      s.roles RoleId.electionAdmin sender = true ∧ s.electionExists e = true ∧
      (s.elections e).isActive = false ∧ (s.elections e).startTime ≤ now ∧
      (s.elections e).positionIds ≠ [] ∧
      s1 = { s with
        elections := updFn s.elections e { s.elections e with isActive := true } } := by
  intro hok
  unfold startElection at hok
  repeat' split at hok
  all_goals try exact (Except.noConfusion hok)
  injection hok with hs
  subst hs
  rename_i h1 h2 h3 h4 h5
  exact ⟨by simpa using h1, by simpa using h2, by simpa using h3, by omega, h5, rfl⟩

theorem endElection_ok_chr {sender : Nat} {e : String} {s s1 : ContractState} :
    endElection sender e s = .ok s1 →
      s.roles RoleId.electionAdmin sender = true ∧ s.electionExists e = true ∧
      (s.elections e).isActive = true ∧
      s1 = { s with
        elections := updFn s.elections e { s.elections e with isActive := false } } := by
  intro hok
  unfold endElection at hok
  repeat' split at hok
  all_goals try exact (Except.noConfusion hok)
  injection hok with hs
  subst hs
  rename_i h1 h2 h3
  exact ⟨by simpa using h1, by simpa using h2, by simpa using h3, rfl⟩

theorem castVote_ok_chr {sender now : Nat} {e p c : String} {h : Nat} {s s1 : ContractState} :
    castVote sender now e p c h s = .ok s1 →
      s.registeredVoters sender = true ∧ s.paused = false ∧
      s.electionExists e = true ∧ (s.elections e).isActive = true ∧
      (s.elections e).startTime ≤ now ∧ now ≤ (s.elections e).endTime ∧
      s.hasVoted sender e p = false ∧
      (((s.elections e).positions p).candidates c).isActive = true ∧
      h ≠ 0 ∧
      s1 = castVoteUpd sender now e p c h s := by
  intro hok
  unfold castVote at hok
  repeat' split at hok
  all_goals try exact (Except.noConfusion hok)
  injection hok with hs
  subst hs
  rename_i h1 h2 h3 h4 h5 h6 h7 h8 h9
  exact ⟨by simpa using h1, by simpa using h2, by simpa using h3, by simpa using h4,
    by omega, by omega, by simpa using h7, by simpa using h8, h9, rfl⟩

theorem castVote_ok_intro {sender now : Nat} {e p c : String} {h : Nat} {s : ContractState}
    (h1 : s.registeredVoters sender = true) (h2 : s.paused = false)
    (h3 : s.electionExists e = true) (h4 : (s.elections e).isActive = true)
    (h5 : (s.elections e).startTime ≤ now) (h6 : now ≤ (s.elections e).endTime)
    (h7 : s.hasVoted sender e p = false)
    (h8 : (((s.elections e).positions p).candidates c).isActive = true)
    (h9 : h ≠ 0) :
    castVote sender now e p c h s = .ok (castVoteUpd sender now e p c h s) := by
  unfold castVote
  rw [if_neg (by simp [h1]), if_neg (by simp [h2]), if_neg (by simp [h3]),
    if_neg (by simp [h4]), if_neg (Nat.not_lt.mpr h5), if_neg (Nat.not_lt.mpr h6),
    if_neg (by simp [h7]), if_neg (by simp [h8]), if_neg h9]

theorem publishResults_ok_chr {sender : Nat} {e : String} {s s1 : ContractState} :
    publishResults sender e s = .ok s1 →
      s.roles RoleId.electionAdmin sender = true ∧ s.electionExists e = true ∧
      (s.elections e).isActive = false ∧ (s.elections e).resultsPublished = false ∧
      s1 = { s with
        elections := updFn s.elections e { s.elections e with resultsPublished := true } } := by
  intro hok
  unfold publishResults at hok
  repeat' split at hok
  all_goals try exact (Except.noConfusion hok)
  injection hok with hs
  subst hs
  rename_i h1 h2 h3 h4
  exact ⟨by simpa using h1, by simpa using h2, by simpa using h3, by simpa using h4, rfl⟩

theorem publishResults_ok_intro {sender : Nat} {e : String} {s : ContractState}
    (h1 : s.roles RoleId.electionAdmin sender = true) (h2 : s.electionExists e = true)
    (h3 : (s.elections e).isActive = false) (h4 : (s.elections e).resultsPublished = false) :
    publishResults sender e s =
      .ok { s with
        elections := updFn s.elections e { s.elections e with resultsPublished := true } } := by
  unfold publishResults
  rw [if_neg (by simp [h1]), if_neg (by simp [h2]), if_neg (by simp [h3]),
    if_neg (by simp [h4])]

theorem pause_ok_chr {sender : Nat} {s s1 : ContractState} :
    pause sender s = .ok s1 →
      s.roles RoleId.defaultAdmin sender = true ∧ s.paused = false ∧
      s1 = { s with paused := true } := by
  intro hok
  unfold pause at hok
  repeat' split at hok
  all_goals try exact (Except.noConfusion hok)
  injection hok with hs
  subst hs
  rename_i h1 h2
  exact ⟨by simpa using h1, by simpa using h2, rfl⟩

theorem unpause_ok_chr {sender : Nat} {s s1 : ContractState} :
    unpause sender s = .ok s1 →
      s.roles RoleId.defaultAdmin sender = true ∧ s.paused = true ∧
      s1 = { s with paused := false } := by
  intro hok
  unfold unpause at hok
  repeat' split at hok
  all_goals try exact (Except.noConfusion hok)
  injection hok with hs
  subst hs
  rename_i h1 h2
  exact ⟨by simpa using h1, by simpa using h2, rfl⟩

theorem grantRole_ok_chr {sender : Nat} {role : RoleId} {account : Nat} {s s1 : ContractState} :
    grantRole sender role account s = .ok s1 →
      s.roles RoleId.defaultAdmin sender = true ∧
      s1 = { s with
        roles := fun r a => if r = role ∧ a = account then true else s.roles r a } := by
  intro hok
  unfold grantRole at hok
  repeat' split at hok
  all_goals try exact (Except.noConfusion hok)
  injection hok with hs
  subst hs
  rename_i h1
  exact ⟨by simpa using h1, rfl⟩

theorem revokeRole_ok_chr {sender : Nat} {role : RoleId} {account : Nat} {s s1 : ContractState} :
    revokeRole sender role account s = .ok s1 →
      s.roles RoleId.defaultAdmin sender = true ∧
      s1 = { s with
        roles := fun r a => if r = role ∧ a = account then false else s.roles r a } := by
  intro hok
  unfold revokeRole at hok
  repeat' split at hok
  all_goals try exact (Except.noConfusion hok)
  injection hok with hs
  subst hs
  rename_i h1
  exact ⟨by simpa using h1, rfl⟩

/-! ### Field lemmas for `castVoteUpd` -/

theorem castVoteUpd_votes {v n : Nat} {e p c : String} {h : Nat} {s : ContractState} :
    (castVoteUpd v n e p c h s).votes =
      updFn s.votes h
        { electionId := e, positionId := p, candidateId := c,
          voter := v, timestamp := n, voteHash := h, isVerified := true } := rfl

theorem castVoteUpd_voteHashes {v n : Nat} {e p c : String} {h : Nat} {s : ContractState} :
    (castVoteUpd v n e p c h s).voteHashes = s.voteHashes ++ [h] := rfl

theorem castVoteUpd_hasVoted {v n : Nat} {e p c : String} {h : Nat} {s : ContractState} :
    (castVoteUpd v n e p c h s).hasVoted = fun v1 e1 p1 =>
      if v1 = v ∧ e1 = e ∧ p1 = p then true else s.hasVoted v1 e1 p1 := rfl

theorem castVoteUpd_electionExists {v n : Nat} {e p c : String} {h : Nat} {s : ContractState} :
    (castVoteUpd v n e p c h s).electionExists = s.electionExists := rfl

theorem castVoteUpd_registeredVoters {v n : Nat} {e p c : String} {h : Nat} {s : ContractState} :
    (castVoteUpd v n e p c h s).registeredVoters = s.registeredVoters := rfl

theorem castVoteUpd_roles {v n : Nat} {e p c : String} {h : Nat} {s : ContractState} :
    (castVoteUpd v n e p c h s).roles = s.roles := rfl

theorem castVoteUpd_paused {v n : Nat} {e p c : String} {h : Nat} {s : ContractState} :
    (castVoteUpd v n e p c h s).paused = s.paused := rfl

theorem castVoteUpd_electionIds {v n : Nat} {e p c : String} {h : Nat} {s : ContractState} :
    (castVoteUpd v n e p c h s).electionIds = s.electionIds := rfl

theorem castVoteUpd_elections_ne {v n : Nat} {e p c : String} {h : Nat} {s : ContractState}
    {e1 : String} (he : e1 ≠ e) :
    (castVoteUpd v n e p c h s).elections e1 = s.elections e1 := by
  simp [castVoteUpd, updFn_ne _ _ _ he]

theorem castVoteUpd_totalVotes {v n : Nat} {e p c : String} {h : Nat} {s : ContractState} :
    ((castVoteUpd v n e p c h s).elections e).totalVotes = (s.elections e).totalVotes + 1 := by
  simp [castVoteUpd, updFn_same]

theorem castVoteUpd_isActive {v n : Nat} {e p c : String} {h : Nat} {s : ContractState}
    (e1 : String) :
    ((castVoteUpd v n e p c h s).elections e1).isActive = (s.elections e1).isActive := by
  by_cases he : e1 = e
  · subst he; simp [castVoteUpd, updFn_same]
  · rw [castVoteUpd_elections_ne he]

theorem castVoteUpd_resultsPublished {v n : Nat} {e p c : String} {h : Nat} {s : ContractState}
    (e1 : String) :
    ((castVoteUpd v n e p c h s).elections e1).resultsPublished =
      (s.elections e1).resultsPublished := by
  by_cases he : e1 = e
  · subst he; simp [castVoteUpd, updFn_same]
  · rw [castVoteUpd_elections_ne he]

theorem castVoteUpd_positionIds {v n : Nat} {e p c : String} {h : Nat} {s : ContractState}
    (e1 : String) :
    ((castVoteUpd v n e p c h s).elections e1).positionIds =
      (s.elections e1).positionIds := by
  by_cases he : e1 = e
  · subst he; simp [castVoteUpd, updFn_same]
  · rw [castVoteUpd_elections_ne he]

theorem castVoteUpd_positions_ne {v n : Nat} {e p c : String} {h : Nat} {s : ContractState}
    {e1 p1 : String} (hne : e1 ≠ e ∨ p1 ≠ p) :
    ((castVoteUpd v n e p c h s).elections e1).positions p1 =
      (s.elections e1).positions p1 := by
  by_cases he : e1 = e
  · subst he
    rcases hne with he' | hp
    · exact absurd rfl he'
    · simp [castVoteUpd, updFn_same, updFn_ne _ _ _ hp]
  · rw [castVoteUpd_elections_ne he]

theorem castVoteUpd_candidateIds {v n : Nat} {e p c : String} {h : Nat} {s : ContractState}
    (e1 p1 : String) :
    (((castVoteUpd v n e p c h s).elections e1).positions p1).candidateIds =
      ((s.elections e1).positions p1).candidateIds := by
  by_cases he : e1 = e
  · subst he
    by_cases hp : p1 = p
    · subst hp; simp [castVoteUpd, updFn_same]
    · rw [castVoteUpd_positions_ne (Or.inr hp)]
  · rw [castVoteUpd_elections_ne he]

theorem castVoteUpd_candidates_ne {v n : Nat} {e p c : String} {h : Nat} {s : ContractState}
    {e1 p1 c1 : String} (hne : e1 ≠ e ∨ p1 ≠ p ∨ c1 ≠ c) :
    (((castVoteUpd v n e p c h s).elections e1).positions p1).candidates c1 =
      ((s.elections e1).positions p1).candidates c1 := by
  by_cases he : e1 = e
  · by_cases hp : p1 = p
    · subst he; subst hp
      rcases hne with he' | hp' | hc
      · exact absurd rfl he'
      · exact absurd rfl hp'
      · simp [castVoteUpd, updFn_same, updFn_ne _ _ _ hc]
    · rw [castVoteUpd_positions_ne (Or.inr hp)]
  · rw [castVoteUpd_elections_ne he]

theorem castVoteUpd_voteCount {v n : Nat} {e p c : String} {h : Nat} {s : ContractState} :
    ((((castVoteUpd v n e p c h s).elections e).positions p).candidates c).voteCount =
      (((s.elections e).positions p).candidates c).voteCount + 1 := by
  simp [castVoteUpd, updFn_same]

/-! ### From checked traces to reachability -/

theorem stepD_of_ok {op : Op} {s s1 : ContractState} (h : applyOp op s = .ok s1) :
    stepD s op = s1 := by
  simp [stepD, h]

theorem reachedBy_append {d : Nat} {t : List Op} {s : ContractState} (ops : List Op)
    (hreach : ReachedBy d t s) (hok : okTrace s ops = true) :
    ReachedBy d (t ++ ops) (runOps s ops) := by
  induction ops generalizing t s with
  | nil => simpa [runOps] using hreach
  | cons op rest ih =>
    unfold okTrace at hok
    cases happ : applyOp op s with
    | error msg => rw [happ] at hok; cases hok
    | ok s1 =>
      rw [happ] at hok
      have hstep : ReachedBy d (t ++ [op]) s1 := ReachedBy.okStep hreach happ
      have hrest := ih hstep hok
      have hrun : runOps s (op :: rest) = runOps s1 rest := by
        simp [runOps, List.foldl_cons, stepD_of_ok happ]
      rw [hrun]
      simpa [List.append_assoc] using hrest

theorem reachedBy_of_okTrace {d : Nat} {ops : List Op}
    (hok : okTrace (initialState d) ops = true) :
    ReachedBy d ops (runOps (initialState d) ops) := by
  simpa using reachedBy_append ops (ReachedBy.nil) hok

theorem reachable_of_okTrace {d : Nat} {ops : List Op}
    (hok : okTrace (initialState d) ops = true) :
    Reachable d (runOps (initialState d) ops) :=
  ⟨ops, reachedBy_of_okTrace hok⟩

/-! ### Counterexamples to the specification's claims -/

/-- C1 counterexample: after voter `2` successfully cast a ballot with hash
`5`, voter `3`'s `castVote` with the *same* hash `5` does not fail with a
duplicate-hash error — it succeeds, and it overwrites the stored record
(the record at hash `5` ends up with voter `3` and candidate `"C2"`). -/
theorem castVote_reused_hash_succeeds_and_overwrites :
    okTrace (initialState 1) (seedOps ++ [cast1]) = true ∧
    (sAfterFirst.votes 5).voter = 2 ∧ (sAfterFirst.votes 5).candidateId = "C1" ∧
    (castVote 3 160 "E1" "P1" "C2" 5 sAfterFirst).map
      (fun st => ((st.votes 5).voter, (st.votes 5).candidateId)) = .ok (3, "C2") :=
  ⟨rfl, rfl, rfl, rfl⟩

/-- C3 counterexample: election `"E1"` reaches `ResultsPublished`
(`isActive = false`, `resultsPublished = true`), yet a later `startElection`
succeeds and moves it back to `Active` — the state machine is not
monotonic. -/
theorem published_election_restarted :
    okTrace (initialState 1) pubOps = true ∧
    (sPub.elections "E1").isActive = false ∧
    (sPub.elections "E1").resultsPublished = true ∧
    (startElection 1 200 "E1" sPub).map
      (fun st => ((st.elections "E1").isActive, (st.elections "E1").resultsPublished)) =
      .ok (true, true) :=
  ⟨rfl, rfl, rfl, rfl⟩

/-- C4 counterexample: in the reachable state `sDup` (two successful
`castVote` calls sharing hash `5`), candidate `"C1"` has `voteCount = 1`
but zero stored vote records reference it, so the tally invariant fails. -/
theorem tallies_broken_by_reused_hash :
    Reachable 1 sDup ∧ ¬ TalliesCorrect sDup := by
  constructor
  · exact reachable_of_okTrace (by decide)
  · intro htc
    have h2 := htc.2 "E1" "P1" "C1"
    have hl : (((sDup.elections "E1").positions "P1").candidates "C1").voteCount = 1 := by
      decide
    have hr : (storedVotes sDup).countP
        (fun r => r.electionId == "E1" && r.positionId == "P1" && r.candidateId == "C1") = 0 := by
      decide
    rw [hl, hr] at h2
    cases h2

/-- C5 counterexample: election `"E1"` was created but never started (state
`Created`, `isActive = false`), yet `publishResults` succeeds instead of
failing with an election-still-active error. -/
theorem publishResults_succeeds_on_unstarted_election :
    okTrace (initialState 1) [Op.opCreateElection 1 0 "E1" "General" "d" 100 2000] = true ∧
    ((runOps (initialState 1) [Op.opCreateElection 1 0 "E1" "General" "d" 100 2000]).elections
      "E1").isActive = false ∧
    (publishResults 1 "E1"
        (runOps (initialState 1) [Op.opCreateElection 1 0 "E1" "General" "d" 100 2000])).map
      (fun st => (st.elections "E1").resultsPublished) = .ok true :=
  ⟨rfl, rfl, rfl⟩

/-- C6 counterexample: election `"E1"` is in `ResultsPublished` (not
`Created`), yet both `addPosition` and `registerCandidate` succeed instead
of failing with an election-not-editable error. -/
theorem addPosition_succeeds_on_published_election :
    okTrace (initialState 1) pubOps = true ∧
    (sPub.elections "E1").resultsPublished = true ∧
    (addPosition 1 "E1" "P2" "Senator" "d" 1 1 sPub).isOk = true ∧
    (registerCandidate 1 "E1" "P1" "C3" "Carol" "pc" "m" 9 sPub).isOk = true :=
  ⟨rfl, rfl, rfl, rfl⟩

/-- C7 counterexample: with the pause switch engaged, a `castVote` from an
unregistered caller fails with the registration error, not the paused
error — the `onlyRegisteredVoter` modifier runs before `whenNotPaused`. -/
theorem paused_unregistered_caller_gets_registration_error :
    okTrace (initialState 1) pausedOps = true ∧
    sPaused.paused = true ∧
    sPaused.registeredVoters 7 = false ∧
    castVote 7 150 "E1" "P1" "C1" 8 sPaused = .error "Caller is not a registered voter" :=
  ⟨rfl, rfl, rfl, rfl⟩

/-- C8 counterexample: `addPosition` with a `positionId` already used in the
same election succeeds and appends a second entry, so `positionIds` holds
the id twice. -/
theorem addPosition_creates_duplicate_position_entry :
    okTrace (initialState 1) dupPosOps = true ∧
    (sDupPos.elections "E1").positionIds = ["P1", "P1"] :=
  ⟨rfl, rfl⟩

/-- C9 counterexample: voter `2`'s `castVote` with hash `5` succeeded (on
`sReady`, for candidate `"C1"`), but after voter `3` reused hash `5`,
`verifyVote 5` returns voter `3`'s data for candidate `"C2"` — not the data
of the successful `castVote` that first produced hash `5`. -/
theorem verifyVote_returns_other_voters_data :
    (castVote 2 150 "E1" "P1" "C1" 5 sReady).isOk = true ∧
    okTrace (initialState 1) dupHashOps = true ∧
    verifyVote 5 sDup = .ok ("E1", "P1", "C2", 3, 160, true) :=
  ⟨rfl, rfl, rfl⟩

/-- C10 counterexample: the pause switch is engaged, yet a `castVote` from
an unregistered address fails with the registration error rather than the
paused error, so it is not the case that every `castVote` fails with the
paused error while paused. -/
theorem paused_castVote_not_always_systemPaused :
    okTrace (initialState 1) [Op.opPause 1] = true ∧
    (runOps (initialState 1) [Op.opPause 1]).paused = true ∧
    castVote 4 50 "E0" "P0" "C0" 9 (runOps (initialState 1) [Op.opPause 1]) =
      .error "Caller is not a registered voter" :=
  ⟨rfl, rfl, rfl⟩

/-! ### Further success/error introduction lemmas -/

theorem addPosition_ok_intro {sender : Nat} {e p t d : String} {mx av : Nat}
    {s : ContractState}
    (h1 : s.roles RoleId.electionAdmin sender = true) (h2 : s.electionExists e = true)
    (h3 : (s.elections e).isActive = false) (h4 : mx > 0) (h5 : av > 0) :
    addPosition sender e p t d mx av s =
      .ok { s with
        elections := updFn s.elections e
          { s.elections e with
            positions := updFn (s.elections e).positions p
              { (s.elections e).positions p with
                title := t, description := d, maxVotesPerVoter := mx, availableSeats := av },
            positionIds := (s.elections e).positionIds ++ [p] } } := by
  unfold addPosition
  rw [if_neg (by simp [h1]), if_neg (by simp [h2]), if_neg (by simp [h3]),
    if_neg (by omega), if_neg (by omega)]

theorem registerCandidate_ok_intro {sender : Nat} {e p c nm pa mf : String} {ad : Nat}
    {s : ContractState}
    (h1 : s.roles RoleId.electionAdmin sender = true) (h2 : s.electionExists e = true)
    (h3 : (s.elections e).isActive = false) (h4 : ad ≠ 0) :
    registerCandidate sender e p c nm pa mf ad s =
      .ok { s with
        elections := updFn s.elections e
          { s.elections e with
            positions := updFn (s.elections e).positions p
              { (s.elections e).positions p with
                candidates := updFn ((s.elections e).positions p).candidates c
                  { name := nm, party := pa, manifesto := mf,
                    candidateAddress := ad, voteCount := 0, isActive := true },
                candidateIds := ((s.elections e).positions p).candidateIds ++ [c] } } } := by
  unfold registerCandidate
  rw [if_neg (by simp [h1]), if_neg (by simp [h2]), if_neg (by simp [h3]), if_neg h4]

/-! ### Claim theorems (amended statements) -/

/-- C1 amended: `castVote` performs no duplicate-hash check.  Whenever the
nine guards it does have are satisfied — registered caller, not paused,
election exists, active, inside the window, caller has not voted for the
position, candidate active, nonzero hash — the call succeeds *regardless of
whether the hash was used before*, and the record stored at that hash slot
is the new ballot (overwriting any previous record there); identical-ballot
replay by the same voter is rejected only by the has-voted check. -/
theorem castVote_ignores_prior_hash_use (s : ContractState) (v now : Nat)
    (e p c : String) (h : Nat)
    (h1 : s.registeredVoters v = true) (h2 : s.paused = false)
    (h3 : s.electionExists e = true) (h4 : (s.elections e).isActive = true)
    (h5 : (s.elections e).startTime ≤ now) (h6 : now ≤ (s.elections e).endTime)
    (h7 : s.hasVoted v e p = false)
    (h8 : (((s.elections e).positions p).candidates c).isActive = true)
    (h9 : h ≠ 0) :
    castVote v now e p c h s = .ok (castVoteUpd v now e p c h s) ∧
    (castVoteUpd v now e p c h s).votes h =
      { electionId := e, positionId := p, candidateId := c,
        voter := v, timestamp := now, voteHash := h, isVerified := true } ∧
    (castVoteUpd v now e p c h s).voteHashes = s.voteHashes ++ [h] := by
  refine ⟨castVote_ok_intro h1 h2 h3 h4 h5 h6 h7 h8 h9, ?_, rfl⟩
  rw [castVoteUpd_votes, updFn_same]

/-- C1 amended, witness: the guards hold in the concrete state
`sAfterFirst`, where hash `5` is already stored, and voter `3`'s reuse of
hash `5` succeeds and overwrites. -/
theorem castVote_ignores_prior_hash_use_witness :
    5 ∈ sAfterFirst.voteHashes ∧
    castVote 3 160 "E1" "P1" "C2" 5 sAfterFirst =
      .ok (castVoteUpd 3 160 "E1" "P1" "C2" 5 sAfterFirst) ∧
    (castVoteUpd 3 160 "E1" "P1" "C2" 5 sAfterFirst).votes 5 =
      { electionId := "E1", positionId := "P1", candidateId := "C2",
        voter := 3, timestamp := 160, voteHash := 5, isVerified := true } := by
  have happ := castVote_ignores_prior_hash_use sAfterFirst 3 160 "E1" "P1" "C2" 5
    (by decide) (by decide) (by decide) (by decide) (by decide) (by decide)
    (by decide) (by decide) (by decide)
  exact ⟨by decide, happ.1, happ.2.1⟩

/-- C3 amended: the only monotone component of the per-election lifecycle is
the `resultsPublished` flag — once set on an existing election, no
successful call clears it (and the election keeps existing).  The lifecycle
itself is *not* monotonic: an ended election — even one with published
results — can be re-activated by `startElection` (see the C3
counterexample). -/
theorem resultsPublished_monotone (op : Op) (s s1 : ContractState) (e : String)
    (hok : applyOp op s = .ok s1)
    (hex : s.electionExists e = true)
    (hpub : (s.elections e).resultsPublished = true) :
    s1.electionExists e = true ∧ (s1.elections e).resultsPublished = true := by
  cases op with
  | opRegisterVoter sender voter =>
    obtain ⟨-, -, rfl⟩ := registerVoter_ok_chr hok
    exact ⟨hex, hpub⟩
  | opRevokeVoter sender voter =>
    obtain ⟨-, -, rfl⟩ := revokeVoter_ok_chr hok
    exact ⟨hex, hpub⟩
  | opCreateElection sender now e0 t d st en =>
    obtain ⟨-, hnew, -, -, rfl⟩ := createElection_ok_chr hok
    have hne : e ≠ e0 := by
      intro hcontra
      rw [hcontra] at hex
      rw [hex] at hnew
      cases hnew
    constructor
    · show updFn s.electionExists e0 true e = true
      rw [updFn_ne _ _ _ hne]
      exact hex
    · show ((updFn s.elections e0 _) e).resultsPublished = true
      rw [updFn_ne _ _ _ hne]
      exact hpub
  | opAddPosition sender e0 p t d mx av =>
    obtain ⟨-, -, -, -, -, rfl⟩ := addPosition_ok_chr hok
    refine ⟨hex, ?_⟩
    show ((updFn s.elections e0 _) e).resultsPublished = true
    by_cases hne : e = e0
    · subst hne; rw [updFn_same]; exact hpub
    · rw [updFn_ne _ _ _ hne]; exact hpub
  | opRegisterCandidate sender e0 p c nm pa mf ad =>
    obtain ⟨-, -, -, -, rfl⟩ := registerCandidate_ok_chr hok
    refine ⟨hex, ?_⟩
    show ((updFn s.elections e0 _) e).resultsPublished = true
    by_cases hne : e = e0
    · subst hne; rw [updFn_same]; exact hpub
    · rw [updFn_ne _ _ _ hne]; exact hpub
  | opStartElection sender now e0 =>
    obtain ⟨-, -, -, -, -, rfl⟩ := startElection_ok_chr hok
    refine ⟨hex, ?_⟩
    show ((updFn s.elections e0 _) e).resultsPublished = true
    by_cases hne : e = e0
    · subst hne; rw [updFn_same]; exact hpub
    · rw [updFn_ne _ _ _ hne]; exact hpub
  | opEndElection sender e0 =>
    obtain ⟨-, -, -, rfl⟩ := endElection_ok_chr hok
    refine ⟨hex, ?_⟩
    show ((updFn s.elections e0 _) e).resultsPublished = true
    by_cases hne : e = e0
    · subst hne; rw [updFn_same]; exact hpub
    · rw [updFn_ne _ _ _ hne]; exact hpub
  | opCastVote sender now e0 p c h =>
    obtain ⟨-, -, -, -, -, -, -, -, -, rfl⟩ := castVote_ok_chr hok
    exact ⟨hex, by rw [castVoteUpd_resultsPublished]; exact hpub⟩
  | opPublishResults sender e0 =>
    obtain ⟨-, -, -, -, rfl⟩ := publishResults_ok_chr hok
    refine ⟨hex, ?_⟩
    show ((updFn s.elections e0 _) e).resultsPublished = true
    by_cases hne : e = e0
    · subst hne; rw [updFn_same]
    · rw [updFn_ne _ _ _ hne]; exact hpub
  | opPause sender =>
    obtain ⟨-, -, rfl⟩ := pause_ok_chr hok
    exact ⟨hex, hpub⟩
  | opUnpause sender =>
    obtain ⟨-, -, rfl⟩ := unpause_ok_chr hok
    exact ⟨hex, hpub⟩
  | opGrantRole sender role account =>
    obtain ⟨-, rfl⟩ := grantRole_ok_chr hok
    exact ⟨hex, hpub⟩
  | opRevokeRole sender role account =>
    obtain ⟨-, rfl⟩ := revokeRole_ok_chr hok
    exact ⟨hex, hpub⟩

/-- C3 amended, witness: `resultsPublished` survives even the `startElection`
call that re-activates the published election `"E1"` in state `sPub`. -/
theorem resultsPublished_monotone_witness :
    (runOps sPub [Op.opStartElection 1 200 "E1"]).electionExists "E1" = true ∧
    ((runOps sPub [Op.opStartElection 1 200 "E1"]).elections "E1").resultsPublished = true := by
  exact resultsPublished_monotone (Op.opStartElection 1 200 "E1") sPub
    (runOps sPub [Op.opStartElection 1 200 "E1"]) "E1" rfl (by decide) (by decide)

/-- C5 amended: `publishResults` succeeds exactly when the caller is an
election admin, the election exists, it is not *currently* active
(`isActive = false` — which includes an election in `Created` that was
never started), and results are not yet published.  When it is active the
error is the ended-first error; a second call after success fails with the
already-published error; success sets only the `resultsPublished` flag and
leaves every tally and vote record unchanged (the tallies are *not* frozen
thereafter — see the C3 counterexample for re-activation). -/
theorem publishResults_exact_behavior (sender : Nat) (e : String) (s : ContractState) :
    ((∃ s1, publishResults sender e s = .ok s1) ↔
      s.roles RoleId.electionAdmin sender = true ∧ s.electionExists e = true ∧
      (s.elections e).isActive = false ∧ (s.elections e).resultsPublished = false) ∧
    (s.roles RoleId.electionAdmin sender = true → s.electionExists e = true →
      (s.elections e).isActive = true →
      publishResults sender e s = .error "Election must be ended first") ∧
    (∀ s1, publishResults sender e s = .ok s1 →
      (s1.elections e).resultsPublished = true ∧
      publishResults sender e s1 = .error "Results already published" ∧
      (∀ e1, (s1.elections e1).totalVotes = (s.elections e1).totalVotes) ∧
      (∀ e1 p c, (((s1.elections e1).positions p).candidates c).voteCount =
        (((s.elections e1).positions p).candidates c).voteCount) ∧
      s1.votes = s.votes ∧ s1.voteHashes = s.voteHashes) := by
  refine ⟨⟨?_, ?_⟩, ?_, ?_⟩
  · rintro ⟨s1, hok⟩
    obtain ⟨h1, h2, h3, h4, -⟩ := publishResults_ok_chr hok
    exact ⟨h1, h2, h3, h4⟩
  · rintro ⟨h1, h2, h3, h4⟩
    exact ⟨_, publishResults_ok_intro h1 h2 h3 h4⟩
  · intro h1 h2 h3
    unfold publishResults
    rw [if_neg (by simp [h1]), if_neg (by simp [h2]), if_pos (by simp [h3])]
  · intro s1 hok
    obtain ⟨h1, h2, h3, h4, rfl⟩ := publishResults_ok_chr hok
    refine ⟨by simp [updFn_same], ?_, ?_, ?_, rfl, rfl⟩
    · unfold publishResults
      dsimp only
      rw [if_neg (by simp [h1]), if_neg (by simp [h2]),
        if_neg (by simp [updFn_same, h3]), if_pos (by simp [updFn_same])]
    · intro e1
      dsimp only
      by_cases he : e1 = e
      · subst he; rw [updFn_same]
      · rw [updFn_ne _ _ _ he]
    · intro e1 p c
      dsimp only
      by_cases he : e1 = e
      · subst he; rw [updFn_same]
      · rw [updFn_ne _ _ _ he]

/-- C5 amended, witness: in the concrete ended state `sEnded`, publishing
succeeds, flips the flag, keeps the tallies, and a second publish fails. -/
theorem publishResults_exact_behavior_witness :
    (∃ s1, publishResults 1 "E1" sEnded = .ok s1) ∧
    publishResults 1 "E1" sPub = .error "Results already published" := by
  have H := publishResults_exact_behavior 1 "E1" sEnded
  refine ⟨H.1.mpr ⟨by decide, by decide, by decide, by decide⟩, ?_⟩
  exact (H.2.2 sPub (by rfl)).2.1

/-- C6 amended: `addPosition` and `registerCandidate` are gated only on the
election *not being active* (`isActive = false`), not on it being in
`Created`: both also succeed on ended or published elections.  Their other
requirements are per-function: `addPosition` checks
`maxVotesPerVoter ≥ 1` and `availableSeats ≥ 1`; `registerCandidate`
checks a nonzero candidate address (and does not check seats or vote
caps); when the election is active both fail with the cannot-modify
error. -/
theorem configuration_gated_by_isActive_only (sender : Nat) (e : String) (s : ContractState) :
    (∀ p t d mx av, (∃ s1, addPosition sender e p t d mx av s = .ok s1) ↔
      s.roles RoleId.electionAdmin sender = true ∧ s.electionExists e = true ∧
      (s.elections e).isActive = false ∧ 1 ≤ mx ∧ 1 ≤ av) ∧
    (∀ p c nm pa mf ad, (∃ s1, registerCandidate sender e p c nm pa mf ad s = .ok s1) ↔
      s.roles RoleId.electionAdmin sender = true ∧ s.electionExists e = true ∧
      (s.elections e).isActive = false ∧ ad ≠ 0) ∧
    (s.roles RoleId.electionAdmin sender = true → s.electionExists e = true →
      (s.elections e).isActive = true →
      (∀ p t d mx av, addPosition sender e p t d mx av s =
        .error "Cannot modify active election") ∧
      (∀ p c nm pa mf ad, registerCandidate sender e p c nm pa mf ad s =
        .error "Cannot modify active election")) := by
  refine ⟨?_, ?_, ?_⟩
  · intro p t d mx av
    constructor
    · rintro ⟨s1, hok⟩
      obtain ⟨h1, h2, h3, h4, h5, -⟩ := addPosition_ok_chr hok
      exact ⟨h1, h2, h3, h4, h5⟩
    · rintro ⟨h1, h2, h3, h4, h5⟩
      exact ⟨_, addPosition_ok_intro h1 h2 h3 h4 h5⟩
  · intro p c nm pa mf ad
    constructor
    · rintro ⟨s1, hok⟩
      obtain ⟨h1, h2, h3, h4, -⟩ := registerCandidate_ok_chr hok
      exact ⟨h1, h2, h3, h4⟩
    · rintro ⟨h1, h2, h3, h4⟩
      exact ⟨_, registerCandidate_ok_intro h1 h2 h3 h4⟩
  · intro h1 h2 h3
    constructor
    · intro p t d mx av
      unfold addPosition
      rw [if_neg (by simp [h1]), if_neg (by simp [h2]), if_pos (by simp [h3])]
    · intro p c nm pa mf ad
      unfold registerCandidate
      rw [if_neg (by simp [h1]), if_neg (by simp [h2]), if_pos (by simp [h3])]

/-- C6 amended, witness: on the published election `"E1"` (state `sPub`,
not in `Created`) both configuration calls succeed, while on the live
election (state `sReady`) both fail with the cannot-modify error. -/
theorem configuration_gated_by_isActive_only_witness :
    (∃ s1, addPosition 1 "E1" "P2" "Senator" "d" 1 1 sPub = .ok s1) ∧
    (∃ s1, registerCandidate 1 "E1" "P1" "C3" "Carol" "pc" "m" 9 sPub = .ok s1) ∧
    addPosition 1 "E1" "P2" "Senator" "d" 1 1 sReady =
      .error "Cannot modify active election" ∧
    registerCandidate 1 "E1" "P1" "C3" "Carol" "pc" "m" 9 sReady =
      .error "Cannot modify active election" := by
  have Hpub := configuration_gated_by_isActive_only 1 "E1" sPub
  have Hlive := configuration_gated_by_isActive_only 1 "E1" sReady
  have hlive := Hlive.2.2 (by decide) (by decide) (by decide)
  exact ⟨(Hpub.1 "P2" "Senator" "d" 1 1).mpr ⟨by decide, by decide, by decide, by decide, by decide⟩,
    (Hpub.2.1 "P1" "C3" "Carol" "pc" "m" 9).mpr ⟨by decide, by decide, by decide, by decide⟩,
    hlive.1 "P2" "Senator" "d" 1 1,
    hlive.2 "P1" "C3" "Carol" "pc" "m" 9⟩

/-- C7 amended: `castVote` evaluates its guards in the source's modifier
order, which puts the voter-registration check *before* the pause check:
(1) unregistered caller, (2) paused, (3) unknown election, (4) election not
active, (5) voting not started, (6) voting ended, (7) already voted,
(8) candidate not active, (9) zero hash.  There is no duplicate-hash guard.
In particular, when the system is paused an unregistered caller gets the
registration error, not the paused error. -/
theorem castVote_guard_order (s : ContractState) (v now : Nat) (e p c : String) (h : Nat) :
    (s.registeredVoters v = false →
      castVote v now e p c h s = .error "Caller is not a registered voter") ∧
    (s.registeredVoters v = true → s.paused = true →
      castVote v now e p c h s = .error "Pausable: paused") ∧
    (s.registeredVoters v = true → s.paused = false → s.electionExists e = false →
      castVote v now e p c h s = .error "Election does not exist") ∧
    (s.registeredVoters v = true → s.paused = false → s.electionExists e = true →
      (s.elections e).isActive = false →
      castVote v now e p c h s = .error "Voting is not active") ∧
    (s.registeredVoters v = true → s.paused = false → s.electionExists e = true →
      (s.elections e).isActive = true → now < (s.elections e).startTime →
      castVote v now e p c h s = .error "Voting has not started") ∧
    (s.registeredVoters v = true → s.paused = false → s.electionExists e = true →
      (s.elections e).isActive = true → (s.elections e).startTime ≤ now →
      (s.elections e).endTime < now →
      castVote v now e p c h s = .error "Voting has ended") ∧
    (s.registeredVoters v = true → s.paused = false → s.electionExists e = true →
      (s.elections e).isActive = true → (s.elections e).startTime ≤ now →
      now ≤ (s.elections e).endTime → s.hasVoted v e p = true →
      castVote v now e p c h s = .error "Already voted for this position") ∧
    (s.registeredVoters v = true → s.paused = false → s.electionExists e = true →
      (s.elections e).isActive = true → (s.elections e).startTime ≤ now →
      now ≤ (s.elections e).endTime → s.hasVoted v e p = false →
      (((s.elections e).positions p).candidates c).isActive = false →
      castVote v now e p c h s = .error "Candidate is not active") ∧
    (s.registeredVoters v = true → s.paused = false → s.electionExists e = true →
      (s.elections e).isActive = true → (s.elections e).startTime ≤ now →
      now ≤ (s.elections e).endTime → s.hasVoted v e p = false →
      (((s.elections e).positions p).candidates c).isActive = true → h = 0 →
      castVote v now e p c h s = .error "Invalid vote hash") := by
  refine ⟨?_, ?_, ?_, ?_, ?_, ?_, ?_, ?_, ?_⟩
  · intro h1
    unfold castVote
    rw [if_pos (by simp [h1])]
  · intro h1 h2
    unfold castVote
    rw [if_neg (by simp [h1]), if_pos h2]
  · intro h1 h2 h3
    unfold castVote
    rw [if_neg (by simp [h1]), if_neg (by simp [h2]), if_pos (by simp [h3])]
  · intro h1 h2 h3 h4
    unfold castVote
    rw [if_neg (by simp [h1]), if_neg (by simp [h2]), if_neg (by simp [h3]),
      if_pos (by simp [h4])]
  · intro h1 h2 h3 h4 h5
    unfold castVote
    rw [if_neg (by simp [h1]), if_neg (by simp [h2]), if_neg (by simp [h3]),
      if_neg (by simp [h4]), if_pos h5]
  · intro h1 h2 h3 h4 h5 h6
    unfold castVote
    rw [if_neg (by simp [h1]), if_neg (by simp [h2]), if_neg (by simp [h3]),
      if_neg (by simp [h4]), if_neg (Nat.not_lt.mpr h5), if_pos h6]
  · intro h1 h2 h3 h4 h5 h6 h7
    unfold castVote
    rw [if_neg (by simp [h1]), if_neg (by simp [h2]), if_neg (by simp [h3]),
      if_neg (by simp [h4]), if_neg (Nat.not_lt.mpr h5), if_neg (Nat.not_lt.mpr h6),
      if_pos h7]
  · intro h1 h2 h3 h4 h5 h6 h7 h8
    unfold castVote
    rw [if_neg (by simp [h1]), if_neg (by simp [h2]), if_neg (by simp [h3]),
      if_neg (by simp [h4]), if_neg (Nat.not_lt.mpr h5), if_neg (Nat.not_lt.mpr h6),
      if_neg (by simp [h7]), if_pos (by simp [h8])]
  · intro h1 h2 h3 h4 h5 h6 h7 h8 h9
    unfold castVote
    rw [if_neg (by simp [h1]), if_neg (by simp [h2]), if_neg (by simp [h3]),
      if_neg (by simp [h4]), if_neg (Nat.not_lt.mpr h5), if_neg (Nat.not_lt.mpr h6),
      if_neg (by simp [h7]), if_neg (by simp [h8]), if_pos h9]

/-- C7 amended, witness: in the paused state `sPaused`, the unregistered
address `7` gets the registration error (guard 1 fires before the pause
guard), while the registered voter `2` gets the paused error (guard 2). -/
theorem castVote_guard_order_witness :
    castVote 7 150 "E1" "P1" "C1" 8 sPaused = .error "Caller is not a registered voter" ∧
    castVote 2 150 "E1" "P1" "C1" 8 sPaused = .error "Pausable: paused" := by
  exact ⟨(castVote_guard_order sPaused 7 150 "E1" "P1" "C1" 8).1 (by decide),
    (castVote_guard_order sPaused 2 150 "E1" "P1" "C1" 8).2.1 (by decide) (by decide)⟩

/-! ### Pause-independence of the administrative functions -/

theorem registerVoter_paused_indep (v w : Nat) (s : ContractState) (b : Bool) :
    registerVoter v w { s with paused := b } =
      Except.map (fun s1 => { s1 with paused := b }) (registerVoter v w s) := by
  unfold registerVoter
  dsimp only
  split_ifs <;> rfl

theorem revokeVoter_paused_indep (v w : Nat) (s : ContractState) (b : Bool) :
    revokeVoter v w { s with paused := b } =
      Except.map (fun s1 => { s1 with paused := b }) (revokeVoter v w s) := by
  unfold revokeVoter
  dsimp only
  split_ifs <;> rfl

theorem createElection_paused_indep (v n : Nat) (e t d : String) (st en : Nat)
    (s : ContractState) (b : Bool) :
    createElection v n e t d st en { s with paused := b } =
      Except.map (fun s1 => { s1 with paused := b }) (createElection v n e t d st en s) := by
  unfold createElection
  dsimp only
  split_ifs <;> rfl

theorem addPosition_paused_indep (v : Nat) (e p t d : String) (mx av : Nat)
    (s : ContractState) (b : Bool) :
    addPosition v e p t d mx av { s with paused := b } =
      Except.map (fun s1 => { s1 with paused := b }) (addPosition v e p t d mx av s) := by
  unfold addPosition
  dsimp only
  split_ifs <;> rfl

theorem registerCandidate_paused_indep (v : Nat) (e p c nm pa mf : String) (ad : Nat)
    (s : ContractState) (b : Bool) :
    registerCandidate v e p c nm pa mf ad { s with paused := b } =
      Except.map (fun s1 => { s1 with paused := b }) (registerCandidate v e p c nm pa mf ad s) := by
  unfold registerCandidate
  dsimp only
  split_ifs <;> rfl

theorem startElection_paused_indep (v n : Nat) (e : String) (s : ContractState) (b : Bool) :
    startElection v n e { s with paused := b } =
      Except.map (fun s1 => { s1 with paused := b }) (startElection v n e s) := by
  unfold startElection
  dsimp only
  split_ifs <;> rfl

theorem endElection_paused_indep (v : Nat) (e : String) (s : ContractState) (b : Bool) :
    endElection v e { s with paused := b } =
      Except.map (fun s1 => { s1 with paused := b }) (endElection v e s) := by
  unfold endElection
  dsimp only
  split_ifs <;> rfl

theorem publishResults_paused_indep (v : Nat) (e : String) (s : ContractState) (b : Bool) :
    publishResults v e { s with paused := b } =
      Except.map (fun s1 => { s1 with paused := b }) (publishResults v e s) := by
  unfold publishResults
  dsimp only
  split_ifs <;> rfl

theorem grantRole_paused_indep (v : Nat) (r : RoleId) (a : Nat) (s : ContractState) (b : Bool) :
    grantRole v r a { s with paused := b } =
      Except.map (fun s1 => { s1 with paused := b }) (grantRole v r a s) := by
  unfold grantRole
  dsimp only
  split_ifs <;> rfl

theorem revokeRole_paused_indep (v : Nat) (r : RoleId) (a : Nat) (s : ContractState) (b : Bool) :
    revokeRole v r a { s with paused := b } =
      Except.map (fun s1 => { s1 with paused := b }) (revokeRole v r a s) := by
  unfold revokeRole
  dsimp only
  split_ifs <;> rfl

/-- C10 amended: while paused, every `castVote` from a *registered* voter
fails with the paused error (an unregistered caller is stopped by the
registration guard first — see the C10 counterexample); the pause flag has
no effect on any administrative call: each succeeds or fails identically
and produces the same state apart from the untouched pause flag; and
`pause`/`unpause` require `DEFAULT_ADMIN_ROLE` — the root role, distinct
from `ELECTION_ADMIN_ROLE` by construction of `RoleId`. -/
theorem pause_halts_voting_only :
    (∀ s v now e p c h, (ContractState.paused s) = true → s.registeredVoters v = true →
      castVote v now e p c h s = .error "Pausable: paused") ∧
    (∀ op, adminCall op = true → ∀ s b,
      applyOp op { s with paused := b } =
        Except.map (fun s1 => { s1 with paused := b }) (applyOp op s)) ∧
    (∀ s sender, s.roles RoleId.defaultAdmin sender = false →
      pause sender s = .error "AccessControl: account is missing role" ∧
      unpause sender s = .error "AccessControl: account is missing role") := by
  refine ⟨?_, ?_, ?_⟩
  · intro s v now e p c h hp hr
    unfold castVote
    rw [if_neg (by simp [hr]), if_pos hp]
  · intro op hadm s b
    cases op with
    | opRegisterVoter sender voter => exact registerVoter_paused_indep sender voter s b
    | opRevokeVoter sender voter => exact revokeVoter_paused_indep sender voter s b
    | opCreateElection sender now e t d st en =>
      exact createElection_paused_indep sender now e t d st en s b
    | opAddPosition sender e p t d mx av =>
      exact addPosition_paused_indep sender e p t d mx av s b
    | opRegisterCandidate sender e p c nm pa mf ad =>
      exact registerCandidate_paused_indep sender e p c nm pa mf ad s b
    | opStartElection sender now e => exact startElection_paused_indep sender now e s b
    | opEndElection sender e => exact endElection_paused_indep sender e s b
    | opCastVote sender now e p c h => simp [adminCall] at hadm
    | opPublishResults sender e => exact publishResults_paused_indep sender e s b
    | opPause sender => simp [adminCall] at hadm
    | opUnpause sender => simp [adminCall] at hadm
    | opGrantRole sender role account => exact grantRole_paused_indep sender role account s b
    | opRevokeRole sender role account => exact revokeRole_paused_indep sender role account s b
  · intro s sender hs
    constructor
    · unfold pause
      rw [if_pos (by simp [hs])]
    · unfold unpause
      rw [if_pos (by simp [hs])]

/-- C10 amended, witness: the registered voter `2` gets the paused error in
`sPaused`; `startElection` behaves identically on `sEnded` with the pause
flag forced on; and the non-root address `2` cannot pause or unpause. -/
theorem pause_halts_voting_only_witness :
    castVote 2 170 "E1" "P1" "C1" 6 sPaused = .error "Pausable: paused" ∧
    applyOp (Op.opStartElection 1 200 "E1") { sEnded with paused := true } =
      Except.map (fun s1 => { s1 with paused := true })
        (applyOp (Op.opStartElection 1 200 "E1") sEnded) ∧
    pause 2 (initialState 1) = .error "AccessControl: account is missing role" := by
  have H := pause_halts_voting_only
  exact ⟨H.1 sPaused 2 170 "E1" "P1" "C1" 6 (by decide) (by decide),
    H.2.1 (Op.opStartElection 1 200 "E1") (by decide) sEnded true,
    (H.2.2 (initialState 1) 2 (by decide)).1⟩

/-! ### The structural invariant holds in every reachable state -/

theorem baseInv_initialState (d : Nat) : BaseInv (initialState d) := by
  refine ⟨fun h hh => rfl, ?_, ?_, List.nodup_nil, ?_⟩
  · intro h hh; cases hh
  · intro h1 h2 hh1; cases hh1
  · intro e
    simp [initialState]

theorem baseInv_preserved {op : Op} {s s1 : ContractState}
    (hok : applyOp op s = .ok s1) (ih : BaseInv s) : BaseInv s1 := by
  obtain ⟨ih1, ih2, ih3, ih4, ih5⟩ := ih
  cases op with
  | opRegisterVoter sender voter =>
    obtain ⟨-, -, rfl⟩ := registerVoter_ok_chr hok
    exact ⟨ih1, ih2, ih3, ih4, ih5⟩
  | opRevokeVoter sender voter =>
    obtain ⟨-, -, rfl⟩ := revokeVoter_ok_chr hok
    exact ⟨ih1, ih2, ih3, ih4, ih5⟩
  | opCreateElection sender now e0 t d st en =>
    obtain ⟨-, hnew, -, -, rfl⟩ := createElection_ok_chr hok
    refine ⟨ih1, ih2, ih3, ?_, ?_⟩
    · show (s.electionIds ++ [e0]).Nodup
      rw [List.nodup_append]
      refine ⟨ih4, List.nodup_singleton e0, ?_⟩
      intro a ha hae
      rw [List.mem_singleton] at hae
      subst hae
      have := (ih5 a).mp ha
      rw [this] at hnew
      cases hnew
    · intro e1
      show e1 ∈ s.electionIds ++ [e0] ↔ updFn s.electionExists e0 true e1 = true
      by_cases he : e1 = e0
      · subst he
        rw [updFn_same]
        simp
      · rw [updFn_ne _ _ _ he, List.mem_append, List.mem_singleton]
        simp only [he, or_false]
        exact ih5 e1
  | opAddPosition sender e0 p t d mx av =>
    obtain ⟨-, -, -, -, -, rfl⟩ := addPosition_ok_chr hok
    exact ⟨ih1, ih2, ih3, ih4, ih5⟩
  | opRegisterCandidate sender e0 p c nm pa mf ad =>
    obtain ⟨-, -, -, -, rfl⟩ := registerCandidate_ok_chr hok
    exact ⟨ih1, ih2, ih3, ih4, ih5⟩
  | opStartElection sender now e0 =>
    obtain ⟨-, -, -, -, -, rfl⟩ := startElection_ok_chr hok
    exact ⟨ih1, ih2, ih3, ih4, ih5⟩
  | opEndElection sender e0 =>
    obtain ⟨-, -, -, rfl⟩ := endElection_ok_chr hok
    exact ⟨ih1, ih2, ih3, ih4, ih5⟩
  | opCastVote sender now e0 p0 c0 h0 =>
    obtain ⟨-, -, -, -, -, -, h7, -, -, rfl⟩ := castVote_ok_chr hok
    rw [BaseInv, castVoteUpd_votes, castVoteUpd_voteHashes, castVoteUpd_hasVoted,
      castVoteUpd_electionIds, castVoteUpd_electionExists]
    refine ⟨?_, ?_, ?_, ih4, ih5⟩
    · intro h hh
      rw [List.mem_append, List.mem_singleton] at hh
      push_neg at hh
      rw [updFn_ne _ _ _ hh.2]
      exact ih1 h hh.1
    · intro h hh
      rw [List.mem_append, List.mem_singleton] at hh
      by_cases hhe : h = h0
      · subst hhe
        rw [updFn_same]
        simp
      · rcases hh with hh | hh
        · rw [updFn_ne _ _ _ hhe]
          have := ih2 h hh
          dsimp only
          by_cases hc : (s.votes h).voter = sender ∧ (s.votes h).electionId = e0 ∧
              (s.votes h).positionId = p0
          · rw [if_pos hc]
          · rw [if_neg hc]; exact this
        · exact absurd hh hhe
    · intro h1 h2 hh1 hh2 hv he hp
      rw [List.mem_append, List.mem_singleton] at hh1 hh2
      by_cases he1 : h1 = h0 <;> by_cases he2 : h2 = h0
      · rw [he1, he2]
      · subst he1
        rcases hh2 with hh2 | hh2
        · rw [updFn_same] at hv he hp
          rw [updFn_ne _ _ _ he2] at hv he hp
          have := ih2 h2 hh2
          rw [← hv, ← he, ← hp] at this
          dsimp at this
          rw [this] at h7
          cases h7
        · exact absurd hh2 he2
      · subst he2
        rcases hh1 with hh1 | hh1
        · rw [updFn_same] at hv he hp
          rw [updFn_ne _ _ _ he1] at hv he hp
          have := ih2 h1 hh1
          rw [hv, he, hp] at this
          dsimp at this
          rw [this] at h7
          cases h7
        · exact absurd hh1 he1
      · rw [updFn_ne _ _ _ he1, updFn_ne _ _ _ he2] at hv he hp
        rcases hh1 with hh1 | hh1
        · rcases hh2 with hh2 | hh2
          · exact ih3 h1 h2 hh1 hh2 hv he hp
          · exact absurd hh2 he2
        · exact absurd hh1 he1
  | opPublishResults sender e0 =>
    obtain ⟨-, -, -, -, rfl⟩ := publishResults_ok_chr hok
    exact ⟨ih1, ih2, ih3, ih4, ih5⟩
  | opPause sender =>
    obtain ⟨-, -, rfl⟩ := pause_ok_chr hok
    exact ⟨ih1, ih2, ih3, ih4, ih5⟩
  | opUnpause sender =>
    obtain ⟨-, -, rfl⟩ := unpause_ok_chr hok
    exact ⟨ih1, ih2, ih3, ih4, ih5⟩
  | opGrantRole sender role account =>
    obtain ⟨-, rfl⟩ := grantRole_ok_chr hok
    exact ⟨ih1, ih2, ih3, ih4, ih5⟩
  | opRevokeRole sender role account =>
    obtain ⟨-, rfl⟩ := revokeRole_ok_chr hok
    exact ⟨ih1, ih2, ih3, ih4, ih5⟩

theorem baseInv_reachable {d : Nat} {s : ContractState} (hreach : Reachable d s) :
    BaseInv s := by
  obtain ⟨t, hrb⟩ := hreach
  induction hrb with
  | nil => exact baseInv_initialState d
  | okStep hprev hok ih => exact baseInv_preserved hok ih
  | errStep hprev herr ih => exact ih

/-- C2: in every reachable state, two distinct stored hash slots never hold
the same (voter, electionId, positionId) triple — so each triple has at
most one vote record; a `castVote` for a triple already marked in the
`hasVoted` index never succeeds (the transaction reverts, leaving the state
unchanged), and when the guards ahead of the has-voted check pass the error
is exactly the already-voted message; a successful `castVote` marks its
triple in the `hasVoted` index. -/
theorem one_vote_per_triple (d : Nat) (s : ContractState) (hreach : Reachable d s) :
    (∀ h1 h2, h1 ∈ s.voteHashes → h2 ∈ s.voteHashes →
      (s.votes h1).voter = (s.votes h2).voter →
      (s.votes h1).electionId = (s.votes h2).electionId →
      (s.votes h1).positionId = (s.votes h2).positionId → h1 = h2) ∧
    (∀ v now e p c h, s.hasVoted v e p = true →
      stepD s (Op.opCastVote v now e p c h) = s ∧
      ∃ msg, castVote v now e p c h s = .error msg) ∧
    (∀ v now e p c h, s.hasVoted v e p = true →
      s.registeredVoters v = true → s.paused = false → s.electionExists e = true →
      (s.elections e).isActive = true → (s.elections e).startTime ≤ now →
      now ≤ (s.elections e).endTime →
      castVote v now e p c h s = .error "Already voted for this position") ∧
    (∀ v now e p c h s1, castVote v now e p c h s = .ok s1 →
      s1.hasVoted v e p = true) := by
  refine ⟨(baseInv_reachable hreach).2.2.1, ?_, ?_, ?_⟩
  · intro v now e p c h hvoted
    cases hres : castVote v now e p c h s with
    | ok s1 =>
      obtain ⟨-, -, -, -, -, -, h7, -, -, -⟩ := castVote_ok_chr hres
      rw [hvoted] at h7
      cases h7
    | error msg =>
      constructor
      · show stepD s (Op.opCastVote v now e p c h) = s
        simp [stepD, applyOp, hres]
      · exact ⟨msg, rfl⟩
  · intro v now e p c h hvoted h1 h2 h3 h4 h5 h6
    unfold castVote
    rw [if_neg (by simp [h1]), if_neg (by simp [h2]), if_neg (by simp [h3]),
      if_neg (by simp [h4]), if_neg (Nat.not_lt.mpr h5), if_neg (Nat.not_lt.mpr h6),
      if_pos hvoted]
  · intro v now e p c h s1 hok
    obtain ⟨-, -, -, -, -, -, -, -, -, rfl⟩ := castVote_ok_chr hok
    rw [castVoteUpd_hasVoted]
    simp

/-- C2 witness: the conclusion instantiated at the concrete reachable state
`sDup`. -/
theorem one_vote_per_triple_witness :
    (∀ h1 h2, h1 ∈ sDup.voteHashes → h2 ∈ sDup.voteHashes →
      (sDup.votes h1).voter = (sDup.votes h2).voter →
      (sDup.votes h1).electionId = (sDup.votes h2).electionId →
      (sDup.votes h1).positionId = (sDup.votes h2).positionId → h1 = h2) ∧
    (∀ v now e p c h, sDup.hasVoted v e p = true →
      stepD sDup (Op.opCastVote v now e p c h) = sDup ∧
      ∃ msg, castVote v now e p c h sDup = .error msg) ∧
    (∀ v now e p c h, sDup.hasVoted v e p = true →
      sDup.registeredVoters v = true → sDup.paused = false → sDup.electionExists e = true →
      (sDup.elections e).isActive = true → (sDup.elections e).startTime ≤ now →
      now ≤ (sDup.elections e).endTime →
      castVote v now e p c h sDup = .error "Already voted for this position") ∧
    (∀ v now e p c h s1, castVote v now e p c h sDup = .ok s1 →
      s1.hasVoted v e p = true) :=
  one_vote_per_triple 1 sDup ⟨dupHashOps, reachedBy_of_okTrace (by decide)⟩

/-- C8 amended: only `Election` ids get a uniqueness check (`createElection`
on an existing id fails with the already-exists error, and `electionIds`
never holds duplicates); `addPosition` and `registerCandidate` perform no
duplicate check — re-adding an id appends a second entry to
`positionIds` / `candidateIds`, and re-registering a candidate resets its
`voteCount` to zero.  The `votes` mapping holds one record per hash by
construction, but `voteHashes` may repeat a hash (see the C4
counterexample). -/
theorem id_uniqueness_actual (d : Nat) (s : ContractState) (hreach : Reachable d s) :
    s.electionIds.Nodup ∧
    (∀ e, e ∈ s.electionIds ↔ s.electionExists e = true) ∧
    (∀ sender now e t dsc st en, s.roles RoleId.electionAdmin sender = true →
      s.electionExists e = true →
      createElection sender now e t dsc st en s = .error "Election already exists") ∧
    (∀ sender e p t dsc mx av s1, addPosition sender e p t dsc mx av s = .ok s1 →
      (s1.elections e).positionIds = (s.elections e).positionIds ++ [p]) ∧
    (∀ sender e p c nm pa mf ad s1, registerCandidate sender e p c nm pa mf ad s = .ok s1 →
      ((s1.elections e).positions p).candidateIds =
        ((s.elections e).positions p).candidateIds ++ [c] ∧
      (((s1.elections e).positions p).candidates c).voteCount = 0) := by
  refine ⟨(baseInv_reachable hreach).2.2.2.1, (baseInv_reachable hreach).2.2.2.2, ?_, ?_, ?_⟩
  · intro sender now e t dsc st en hadm hex
    unfold createElection
    rw [if_neg (by simp [hadm]), if_pos (by simp [hex])]
  · intro sender e p t dsc mx av s1 hok
    obtain ⟨-, -, -, -, -, rfl⟩ := addPosition_ok_chr hok
    simp [updFn_same]
  · intro sender e p c nm pa mf ad s1 hok
    obtain ⟨-, -, -, -, rfl⟩ := registerCandidate_ok_chr hok
    simp [updFn_same]

/-- C8 amended, witness: the conclusion instantiated at the concrete
reachable state `sDupPos`, where `positionIds` already holds `"P1"`
twice. -/
theorem id_uniqueness_actual_witness :
    sDupPos.electionIds.Nodup ∧
    (∀ e, e ∈ sDupPos.electionIds ↔ sDupPos.electionExists e = true) ∧
    (∀ sender now e t dsc st en, sDupPos.roles RoleId.electionAdmin sender = true →
      sDupPos.electionExists e = true →
      createElection sender now e t dsc st en sDupPos = .error "Election already exists") ∧
    (∀ sender e p t dsc mx av s1, addPosition sender e p t dsc mx av sDupPos = .ok s1 →
      (s1.elections e).positionIds = (sDupPos.elections e).positionIds ++ [p]) ∧
    (∀ sender e p c nm pa mf ad s1,
      registerCandidate sender e p c nm pa mf ad sDupPos = .ok s1 →
      ((s1.elections e).positions p).candidateIds =
        ((sDupPos.elections e).positions p).candidateIds ++ [c] ∧
      (((s1.elections e).positions p).candidates c).voteCount = 0) :=
  id_uniqueness_actual 1 sDupPos ⟨dupPosOps, reachedBy_of_okTrace (by decide)⟩

/-- C9 amended: immediately after a successful `castVote` with hash `h` by
a nonzero voter address, `verifyVote h` returns exactly that call's data —
but it reads the *current* slot, so a later reuse of `h` makes it return
the latest writer's data (see the C9 counterexample); for a hash that no
successful `castVote` ever stored, `verifyVote` fails with the not-found
error.  `verifyVote` takes no part in any state transition (it is a view
function: `applyOp` has no constructor for it). -/
theorem verifyVote_roundtrip_behavior :
    (∀ v now e p c h s s1, castVote v now e p c h s = .ok s1 → v ≠ 0 →
      verifyVote h s1 = .ok (e, p, c, v, now, true)) ∧
    (∀ d s h, Reachable d s → h ∉ s.voteHashes →
      verifyVote h s = .error "Vote not found") := by
  constructor
  · intro v now e p c h s s1 hok hv
    obtain ⟨-, -, -, -, -, -, -, -, -, rfl⟩ := castVote_ok_chr hok
    unfold verifyVote
    rw [castVoteUpd_votes, updFn_same]
    dsimp only
    rw [if_neg hv]
  · intro d s h hreach hnotin
    have hdef := (baseInv_reachable hreach).1 h hnotin
    unfold verifyVote
    rw [hdef]
    rfl

/-- C9 amended, witness: the round trip holds right after voter `2`'s cast
on the live state `sReady`, and an unused hash is reported not found in the
freshly deployed state. -/
theorem verifyVote_roundtrip_behavior_witness :
    verifyVote 5 (castVoteUpd 2 150 "E1" "P1" "C1" 5 sReady) =
      .ok ("E1", "P1", "C1", 2, 150, true) ∧
    verifyVote 99 (initialState 1) = .error "Vote not found" := by
  have H := verifyVote_roundtrip_behavior
  exact ⟨H.1 2 150 "E1" "P1" "C1" 5 sReady (castVoteUpd 2 150 "E1" "P1" "C1" 5 sReady)
      rfl (by decide),
    H.2 1 (initialState 1) 99 ⟨[], ReachedBy.nil⟩ (by decide)⟩

/-! ### The tally invariant along well-behaved traces -/

theorem goodTrace_drop {t : List Op} {op : Op} (h : GoodTrace (t ++ [op])) : GoodTrace t := by
  obtain ⟨h1, h2⟩ := h
  constructor
  · rw [List.filterMap_append] at h1
    exact ((List.nodup_append).mp h1).1
  · exact ((List.pairwise_append).mp h2).1

theorem goodTrace_last {t : List Op} {op : Op} (h : GoodTrace (t ++ [op])) :
    ∀ o1 ∈ t, noClobber o1 op = true := by
  intro o1 ho1
  exact ((List.pairwise_append).mp h.2).2.2 o1 ho1 op (List.mem_singleton_self op)

theorem goodTrace_fresh {t : List Op} {v n : Nat} {e p c : String} {h0 : Nat}
    (h : GoodTrace (t ++ [Op.opCastVote v n e p c h0])) :
    h0 ∉ t.filterMap castHash := by
  have h1 := h.1
  rw [List.filterMap_append] at h1
  have h2 : List.filterMap castHash [Op.opCastVote v n e p c h0] = [h0] := rfl
  rw [h2] at h1
  have h3 := (List.nodup_append).mp h1
  intro hmem
  exact h3.2.2 hmem (List.mem_singleton_self h0)

theorem voteHashes_sub_trace {t : List Op} {s : ContractState} (hrec : RecordsFromTrace t s) :
    ∀ h, h ∈ s.voteHashes → h ∈ t.filterMap castHash := by
  intro h hh
  exact List.mem_filterMap.mpr ⟨_, hrec h hh, rfl⟩

theorem storedVotes_castVoteUpd {v n : Nat} {e p c : String} {h0 : Nat} {s : ContractState}
    (hnodup : s.voteHashes.Nodup) (hfresh : h0 ∉ s.voteHashes) :
    storedVotes (castVoteUpd v n e p c h0 s) =
      storedVotes s ++
        [{ electionId := e, positionId := p, candidateId := c,
           voter := v, timestamp := n, voteHash := h0, isVerified := true }] := by
  unfold storedVotes
  rw [castVoteUpd_voteHashes, castVoteUpd_votes]
  have hnodup2 : (s.voteHashes ++ [h0]).Nodup := by
    rw [List.nodup_append]
    refine ⟨hnodup, List.nodup_singleton _, ?_⟩
    intro a ha hae
    rw [List.mem_singleton] at hae
    exact hfresh (hae ▸ ha)
  rw [List.Nodup.dedup hnodup2, List.Nodup.dedup hnodup, List.map_append]
  congr 1
  · exact List.map_congr_left fun x hx => updFn_ne _ _ _ (fun hxh => hfresh (hxh ▸ hx))
  · simp [updFn_same]

theorem talliesCorrect_initialState (d : Nat) : TalliesCorrect (initialState d) :=
  ⟨fun _ => rfl, fun _ _ _ => rfl⟩

theorem tallyInv_preserved {t : List Op} {op : Op} {s s1 : ContractState}
    (hok : applyOp op s = .ok s1) (hgood : GoodTrace (t ++ [op]))
    (ih : TallyInv t s) : TallyInv (t ++ [op]) s1 := by
  obtain ⟨⟨ihT1, ihT2⟩, ihN, ihE, ihR⟩ := ih
  cases op with
  | opRegisterVoter sender voter =>
    obtain ⟨-, -, rfl⟩ := registerVoter_ok_chr hok
    exact ⟨⟨ihT1, ihT2⟩, ihN, ihE, fun h hh => List.mem_append_left _ (ihR h hh)⟩
  | opRevokeVoter sender voter =>
    obtain ⟨-, -, rfl⟩ := revokeVoter_ok_chr hok
    exact ⟨⟨ihT1, ihT2⟩, ihN, ihE, fun h hh => List.mem_append_left _ (ihR h hh)⟩
  | opPause sender =>
    obtain ⟨-, -, rfl⟩ := pause_ok_chr hok
    exact ⟨⟨ihT1, ihT2⟩, ihN, ihE, fun h hh => List.mem_append_left _ (ihR h hh)⟩
  | opUnpause sender =>
    obtain ⟨-, -, rfl⟩ := unpause_ok_chr hok
    exact ⟨⟨ihT1, ihT2⟩, ihN, ihE, fun h hh => List.mem_append_left _ (ihR h hh)⟩
  | opGrantRole sender role account =>
    obtain ⟨-, rfl⟩ := grantRole_ok_chr hok
    exact ⟨⟨ihT1, ihT2⟩, ihN, ihE, fun h hh => List.mem_append_left _ (ihR h hh)⟩
  | opRevokeRole sender role account =>
    obtain ⟨-, rfl⟩ := revokeRole_ok_chr hok
    exact ⟨⟨ihT1, ihT2⟩, ihN, ihE, fun h hh => List.mem_append_left _ (ihR h hh)⟩
  | opCreateElection sender now e0 t0 d0 st en =>
    obtain ⟨-, hnew, -, -, rfl⟩ := createElection_ok_chr hok
    have hzero : ∀ pred : Vote → Bool,
        (∀ r, pred r = true → r.electionId = e0) → (storedVotes s).countP pred = 0 := by
      intro pred hpred
      rw [List.countP_eq_zero]
      intro r hr hpr
      obtain ⟨h, hh, rfl⟩ := List.mem_map.mp hr
      have hh2 : h ∈ s.voteHashes := List.mem_dedup.mp hh
      have hex := ihE h hh2
      rw [hpred _ hpr] at hex
      rw [hex] at hnew
      cases hnew
    refine ⟨⟨?_, ?_⟩, ihN, ?_, fun h hh => List.mem_append_left _ (ihR h hh)⟩
    · intro e
      show (updFn s.elections e0 _ e).totalVotes = _
      by_cases he : e = e0
      · subst he
        rw [updFn_same]
        show (0 : Nat) = (storedVotes s).countP _
        exact (hzero _ (fun r hr => by simpa using hr)).symm
      · rw [updFn_ne _ _ _ he]
        exact ihT1 e
    · intro e p c
      show (((updFn s.elections e0 _ e).positions p).candidates c).voteCount = _
      by_cases he : e = e0
      · subst he
        rw [updFn_same]
        exact ihT2 e p c
      · rw [updFn_ne _ _ _ he]
        exact ihT2 e p c
    · intro h hh
      show updFn s.electionExists e0 true ((s.votes h).electionId) = true
      by_cases heq : (s.votes h).electionId = e0
      · rw [heq, updFn_same]
      · rw [updFn_ne _ _ _ heq]
        exact ihE h hh
  | opAddPosition sender e0 p0 t0 d0 mx av =>
    obtain ⟨-, -, -, -, -, rfl⟩ := addPosition_ok_chr hok
    refine ⟨⟨?_, ?_⟩, ihN, ihE, fun h hh => List.mem_append_left _ (ihR h hh)⟩
    · intro e
      show (updFn s.elections e0 _ e).totalVotes = _
      by_cases he : e = e0
      · subst he
        rw [updFn_same]
        exact ihT1 e
      · rw [updFn_ne _ _ _ he]
        exact ihT1 e
    · intro e p c
      show (((updFn s.elections e0 _ e).positions p).candidates c).voteCount = _
      by_cases he : e = e0
      · subst he
        rw [updFn_same]
        show (((updFn (s.elections e).positions p0 _ p).candidates c)).voteCount = _
        by_cases hp : p = p0
        · subst hp
          rw [updFn_same]
          exact ihT2 e p c
        · rw [updFn_ne _ _ _ hp]
          exact ihT2 e p c
      · rw [updFn_ne _ _ _ he]
        exact ihT2 e p c
  | opStartElection sender now e0 =>
    obtain ⟨-, -, -, -, -, rfl⟩ := startElection_ok_chr hok
    refine ⟨⟨?_, ?_⟩, ihN, ihE, fun h hh => List.mem_append_left _ (ihR h hh)⟩
    · intro e
      show (updFn s.elections e0 _ e).totalVotes = _
      by_cases he : e = e0
      · subst he
        rw [updFn_same]
        exact ihT1 e
      · rw [updFn_ne _ _ _ he]
        exact ihT1 e
    · intro e p c
      show (((updFn s.elections e0 _ e).positions p).candidates c).voteCount = _
      by_cases he : e = e0
      · subst he
        rw [updFn_same]
        exact ihT2 e p c
      · rw [updFn_ne _ _ _ he]
        exact ihT2 e p c
  | opEndElection sender e0 =>
    obtain ⟨-, -, -, rfl⟩ := endElection_ok_chr hok
    refine ⟨⟨?_, ?_⟩, ihN, ihE, fun h hh => List.mem_append_left _ (ihR h hh)⟩
    · intro e
      show (updFn s.elections e0 _ e).totalVotes = _
      by_cases he : e = e0
      · subst he
        rw [updFn_same]
        exact ihT1 e
      · rw [updFn_ne _ _ _ he]
        exact ihT1 e
    · intro e p c
      show (((updFn s.elections e0 _ e).positions p).candidates c).voteCount = _
      by_cases he : e = e0
      · subst he
        rw [updFn_same]
        exact ihT2 e p c
      · rw [updFn_ne _ _ _ he]
        exact ihT2 e p c
  | opPublishResults sender e0 =>
    obtain ⟨-, -, -, -, rfl⟩ := publishResults_ok_chr hok
    refine ⟨⟨?_, ?_⟩, ihN, ihE, fun h hh => List.mem_append_left _ (ihR h hh)⟩
    · intro e
      show (updFn s.elections e0 _ e).totalVotes = _
      by_cases he : e = e0
      · subst he
        rw [updFn_same]
        exact ihT1 e
      · rw [updFn_ne _ _ _ he]
        exact ihT1 e
    · intro e p c
      show (((updFn s.elections e0 _ e).positions p).candidates c).voteCount = _
      by_cases he : e = e0
      · subst he
        rw [updFn_same]
        exact ihT2 e p c
      · rw [updFn_ne _ _ _ he]
        exact ihT2 e p c
  | opRegisterCandidate sender e0 p0 c0 nm pa mf ad =>
    obtain ⟨-, -, -, -, rfl⟩ := registerCandidate_ok_chr hok
    have hclob := goodTrace_last hgood
    have hzero : (storedVotes s).countP
        (fun r => r.electionId == e0 && r.positionId == p0 && r.candidateId == c0) = 0 := by
      rw [List.countP_eq_zero]
      intro r hr hpr
      obtain ⟨h, hh, rfl⟩ := List.mem_map.mp hr
      have hh2 : h ∈ s.voteHashes := List.mem_dedup.mp hh
      have hmem := ihR h hh2
      have hnc := hclob _ hmem
      simp only [noClobber] at hnc
      simp only [Bool.and_eq_true, beq_iff_eq] at hpr
      rw [hpr.1.1, hpr.1.2, hpr.2] at hnc
      simp at hnc
    refine ⟨⟨?_, ?_⟩, ihN, ihE, fun h hh => List.mem_append_left _ (ihR h hh)⟩
    · intro e
      show (updFn s.elections e0 _ e).totalVotes = _
      by_cases he : e = e0
      · subst he
        rw [updFn_same]
        exact ihT1 e
      · rw [updFn_ne _ _ _ he]
        exact ihT1 e
    · intro e p c
      show (((updFn s.elections e0 _ e).positions p).candidates c).voteCount = _
      by_cases he : e = e0
      · subst he
        rw [updFn_same]
        show (((updFn (s.elections e).positions p0 _ p).candidates c)).voteCount = _
        by_cases hp : p = p0
        · subst hp
          rw [updFn_same]
          show ((updFn ((s.elections e).positions p).candidates c0 _ c).voteCount) = _
          by_cases hc : c = c0
          · subst hc
            rw [updFn_same]
            exact hzero.symm
          · rw [updFn_ne _ _ _ hc]
            exact ihT2 e p c
        · rw [updFn_ne _ _ _ hp]
          exact ihT2 e p c
      · rw [updFn_ne _ _ _ he]
        exact ihT2 e p c
  | opCastVote sender now e0 p0 c0 h0 =>
    obtain ⟨-, -, h3, -, -, -, -, -, -, rfl⟩ := castVote_ok_chr hok
    have hfresh : h0 ∉ s.voteHashes := fun hmem =>
      goodTrace_fresh hgood (voteHashes_sub_trace ihR h0 hmem)
    have hsv : storedVotes (castVoteUpd sender now e0 p0 c0 h0 s) =
        storedVotes s ++
          [{ electionId := e0, positionId := p0, candidateId := c0,
             voter := sender, timestamp := now, voteHash := h0, isVerified := true }] :=
      storedVotes_castVoteUpd ihN hfresh
    refine ⟨⟨?_, ?_⟩, ?_, ?_, ?_⟩
    · intro e
      rw [hsv, List.countP_append]
      by_cases he : e = e0
      · subst he
        rw [castVoteUpd_totalVotes, ihT1 e]
        simp [List.countP_cons]
      · have hel : (castVoteUpd sender now e0 p0 c0 h0 s).elections e = s.elections e :=
          castVoteUpd_elections_ne he
        rw [hel, ihT1 e]
        have hz : List.countP (fun r => r.electionId == e)
            [({ electionId := e0, positionId := p0, candidateId := c0, voter := sender,
                timestamp := now, voteHash := h0, isVerified := true } : Vote)] = 0 := by
          simp [List.countP_cons, Ne.symm he]
        rw [hz]
        omega
    · intro e p c
      rw [hsv, List.countP_append]
      by_cases hpath : e = e0 ∧ p = p0 ∧ c = c0
      · obtain ⟨rfl, rfl, rfl⟩ := hpath
        rw [castVoteUpd_voteCount, ihT2 e p c]
        simp [List.countP_cons]
      · have hne : e ≠ e0 ∨ p ≠ p0 ∨ c ≠ c0 := by tauto
        rw [castVoteUpd_candidates_ne hne, ihT2 e p c]
        have hz : List.countP
            (fun r => r.electionId == e && r.positionId == p && r.candidateId == c)
            [({ electionId := e0, positionId := p0, candidateId := c0, voter := sender,
                timestamp := now, voteHash := h0, isVerified := true } : Vote)] = 0 := by
          rcases hne with h | h | h <;> simp [List.countP_cons, Ne.symm h]
        rw [hz]
        omega
    · rw [castVoteUpd_voteHashes, List.nodup_append]
      refine ⟨ihN, List.nodup_singleton _, ?_⟩
      intro a ha hae
      rw [List.mem_singleton] at hae
      exact hfresh (hae ▸ ha)
    · intro h hh
      rw [castVoteUpd_voteHashes, List.mem_append, List.mem_singleton] at hh
      rw [RecordsExist] at *
      show (castVoteUpd sender now e0 p0 c0 h0 s).electionExists
        (((castVoteUpd sender now e0 p0 c0 h0 s).votes h).electionId) = true
      rw [castVoteUpd_electionExists, castVoteUpd_votes]
      by_cases hhe : h = h0
      · subst hhe
        rw [updFn_same]
        exact h3
      · rw [updFn_ne _ _ _ hhe]
        rcases hh with hh | hh
        · exact ihE h hh
        · exact absurd hh hhe
    · intro h hh
      rw [castVoteUpd_voteHashes, List.mem_append, List.mem_singleton] at hh
      show Op.opCastVote (((castVoteUpd sender now e0 p0 c0 h0 s).votes h).voter) _ _ _ _ h ∈ _
      rw [castVoteUpd_votes]
      by_cases hhe : h = h0
      · subst hhe
        rw [updFn_same]
        exact List.mem_append_right _ (List.mem_singleton_self _)
      · rw [updFn_ne _ _ _ hhe]
        rcases hh with hh | hh
        · exact List.mem_append_left _ (ihR h hh)
        · exact absurd hh hhe

theorem tallyInv_reachedBy {d : Nat} {t : List Op} {s : ContractState}
    (hrb : ReachedBy d t s) : GoodTrace t → TallyInv t s := by
  induction hrb with
  | nil =>
    intro _
    refine ⟨talliesCorrect_initialState d, List.nodup_nil, ?_, ?_⟩
    · intro h hh
      cases hh
    · intro h hh
      cases hh
  | okStep hprev hok ih =>
    intro hgood
    exact tallyInv_preserved hok hgood (ih (goodTrace_drop hgood))
  | errStep hprev herr ih =>
    intro hgood
    obtain ⟨hT, hN, hE, hR⟩ := ih (goodTrace_drop hgood)
    exact ⟨hT, hN, hE, fun h hh => List.mem_append_left _ (hR h hh)⟩

/-- C4 amended: along any trace in which no two `castVote` calls share a
`voteHash` and no candidate is re-registered after a vote was cast for it,
every reachable state satisfies the tally invariant: each election's
`totalVotes` equals the count of stored records with its id and each
candidate's `voteCount` equals the count of stored records referencing it.
(Reusing a hash overwrites a record and breaks the equalities — see the C4
counterexample — and a candidate re-registration resets its count.) -/
theorem tallies_correct_on_good_traces (d : Nat) (t : List Op) (s : ContractState)
    (hrb : ReachedBy d t s) (hgood : GoodTrace t) : TalliesCorrect s :=
  (tallyInv_reachedBy hrb hgood).1

/-- C4 amended, witness: the tally invariant holds after the well-behaved
concrete trace `goodOps` (two ballots with distinct hashes). -/
theorem tallies_correct_on_good_traces_witness : TalliesCorrect sGood :=
  tallies_correct_on_good_traces 1 goodOps sGood (reachedBy_of_okTrace (by decide))
    ⟨by decide, by decide⟩

end Comitia
